import Mathlib

/-!
# Background oplog synchronisation (`src/mongo/db/repl/bgsync.cpp`)

A shallow embedding of `BackgroundSync`: the sync-target selection of
`getOplogReader`, the staleness test `isStale`, the lazily created singleton of
`get`, and the tailing loop of `produce`.

The collaborators the file calls into (the replica set, the oplog reader, the
clock, the shutdown flag) are not part of the translated sources.  Their answers
are supplied by the environment as finite scripts stored in `World`: every call
of the code consumes the next scripted answer, so that the code itself is a pure
state transformer on `World`.  Calls that have an effect outside `BackgroundSync`
are appended to `World.trace`.
-/

namespace Mongo

/-! ## GTIDs and the staleness test -/

section GTID

variable {G : Type} [LinearOrder G]

/-- Modelled from the spec: `GTID::cmp` is declared outside the translated
sources.  The spec describes GTIDs as opaque values carrying a total order and the
comparator as `compare(a, b) -> {less, equal, greater}`; the result is negative,
zero or positive accordingly. -/
def GTID.cmp (a b : G) : Int :=
  if a < b then -1 else if a = b then 0 else 1

/-- Embeds `BackgroundSync::isStale` (bgsync.cpp 196-207).  `remoteOldestGTID` is the
`_id` of the document `r.findOne(rsoplog, Query())` returns, `currLiveState` the
value of `theReplSet->gtidManager->getLiveState()` read under `_mutex`.  The
caller keeps the document in `oldest` (the out-parameter `remoteOldestOp`). -/
def isStale (currLiveState remoteOldestGTID : G) : Bool :=
  if GTID.cmp currLiveState remoteOldestGTID ≤ 0 then true else false

end GTID

/-! ## Data model -/

/-- A replica-set member, identified by `fullName()`. -/
structure Member where
  fullName : String
  deriving DecidableEq, Repr

/-- One answer of `theReplSet->getMemberToSyncTo()` together with what the code
observes when it evaluates that member: whether `r.connect` succeeds, the GTID of
the oldest operation the member still retains, and the local live-state GTID at
the moment `isStale` reads it. -/
structure Candidate (G : Type) where
  member : Member
  connects : Bool
  oldest : G
  liveState : G
  deriving DecidableEq, Repr

/-- Embeds `BackgroundSync::QueueCounter`.  The field types are declared in `bgsync.h`,
which is not among the translated sources: `waitTime` is an `unsigned long long`
(64 bits) and `numElems` an `unsigned int` (32 bits), in line with `getCounters`
writing the first with `appendIntOrLL` and the second with `append`.  The fields
hold the values of those machine integers; `World.fetch` updates them modulo
`2^64` and `2^32`. -/
structure QueueCounter where
  waitTime : Nat
  numElems : Nat
  deriving DecidableEq, Repr

/-- Embeds `QueueCounter::QueueCounter()` (bgsync.cpp 33-34). -/
def QueueCounter.new : QueueCounter := { waitTime := 0, numElems := 0 }

/-- The members of a `BackgroundSync` object that bgsync.cpp reads or writes.
(`_lastGTIDFetched` is only passed to the tailing query and never assigned.) -/
structure BackgroundSync where
  currentSyncTarget : Option Member
  queueCounter : QueueCounter
  deriving DecidableEq, Repr

/-- Embeds `BackgroundSync::BackgroundSync()` (bgsync.cpp 29-31). -/
def BackgroundSync.new : BackgroundSync :=
  { currentSyncTarget := none, queueCounter := QueueCounter.new }

/-- Embeds `BackgroundSync::getSyncTarget` (bgsync.cpp 259-262). -/
def BackgroundSync.getSyncTarget (b : BackgroundSync) : Option Member :=
  b.currentSyncTarget

/-- Embeds `BackgroundSync::getCounters` (bgsync.cpp 44-52): the pair
`(waitTimeMs, numElems)` read under `_mutex`. -/
def BackgroundSync.getCounters (b : BackgroundSync) : Nat × Nat :=
  (b.queueCounter.waitTime, b.queueCounter.numElems)

/-- A record the remote cursor will deliver, with the two durations the code can
observe around it: `fetchMs` elapses inside the blocking fetch (`more` /
`nextSafe`) that delivers the record, `lockMs` elapses between the construction of
the `Timer` and the call of `timer.millis()` under `_mutex`. -/
structure Incoming where
  op : Nat
  fetchMs : Nat
  lockMs : Nat
  deriving DecidableEq, Repr

/-- The state of the local `OplogReader r`: its connection, whether it holds a
cursor, and the records buffered in the current batch. -/
structure OplogReader where
  conn : Option String
  haveCursor : Bool
  batch : List Incoming
  deriving DecidableEq, Repr

/-- Modelled from the spec: the reader as constructed by `OplogReader r(false)`,
with no connection and no cursor. -/
def OplogReader.new : OplogReader :=
  { conn := none, haveCursor := false, batch := [] }

/-- Calls that leave `BackgroundSync`.  `veto host none` is `veto(host)` with the
membership service's default cooldown, `veto host (some n)` is `veto(host, n)`.
`goStale m g` carries the GTID read from `oldest` (`none` for the initial empty
document).  `setSyncTarget` is a write of `_currentSyncTarget` under `_mutex`;
`fetched op ms` is one record taken from the cursor together with the
`timer.millis()` value added to the counter. -/
inductive Event (G : Type) where
  | connect (host : String) (ok : Bool)
  | resetConnection
  | veto (host : String) (secs : Option Nat)
  | goStale (m : Member) (remoteOldestGTID : Option G)
  | sleepsecs (n : Nat)
  | setSyncTarget (m : Option Member)
  | tailingQueryGTE
  | tailCheck
  | fetched (op : Nat) (millis : Nat)
  deriving DecidableEq, Repr

/-- The object, the local reader, the scripted environment and the trace.

* `toYield`: the members successive `getMemberToSyncTo()` calls return, then NULL;
* `query`: what `tailingQueryGTE` leaves behind, `none` for no cursor, `some b` for
  a cursor whose first batch is `b`;
* `incoming`: the batches later requests to the server return (an exhausted script
  means the server has nothing more);
* `tailChecks`: whether the cursor survives each `tailCheck` (exhausted: it does not);
* `forceSync`, `primary`, `readable`: the answers of `gotForceSync()`,
  `isPrimary()` and `hbstate.readable()` (exhausted: false, false, true);
* `now`: the clock in milliseconds. -/
structure World (G : Type) where
  bg : BackgroundSync
  r : OplogReader
  toYield : List (Candidate G)
  query : Option (List Incoming)
  incoming : List (List Incoming)
  tailChecks : List Bool
  forceSync : List Bool
  primary : List Bool
  readable : List Bool
  now : Nat
  trace : List (Event G)
  deriving DecidableEq

/-- How a call ends: it returns, it throws, or the process is halted. -/
inductive Outcome (G : Type) where
  | returned (w : World G)
  | threw (w : World G)
  | aborted (w : World G)
  deriving DecidableEq

/-- The world a call ends in. -/
def Outcome.world {G : Type} : Outcome G → World G
  | .returned w => w
  | .threw w => w
  | .aborted w => w

/-- Append events to the trace. -/
def World.emit {G : Type} (w : World G) (es : List (Event G)) : World G :=
  { w with trace := w.trace ++ es }

/-- Write `_currentSyncTarget` under `_mutex`. -/
def World.setSyncTarget {G : Type} (w : World G) (m : Option Member) : World G :=
  { w with bg := { w.bg with currentSyncTarget := m }, trace := w.trace ++ [Event.setSyncTarget m] }

/-! ## Sync-target selection -/

section Select

variable {G : Type} [LinearOrder G]

/-- The `while` loop of `BackgroundSync::getOplogReader` and the code after it
(bgsync.cpp 214-250).  The first argument is the rest of the `getMemberToSyncTo`
script, `stale` and `oldest` are the local variables of that name. -/
def getOplogReaderLoop :
    List (Candidate G) → Option Member → Option G → World G → World G
  | [], stale, oldest, w =>
      let w := { w with toYield := [] }
      let w := match stale with
        | some m => w.emit [Event.goStale m oldest, Event.sleepsecs 120]
        | none => w
      w.setSyncTarget none
  | c :: cs, stale, oldest, w =>
      let current := c.member.fullName
      if c.connects = false then
        getOplogReaderLoop cs stale oldest
          (w.emit [Event.connect current false, Event.resetConnection, Event.veto current none])
      else
        let w := { w.emit [Event.connect current true] with r := { w.r with conn := some current } }
        let oldest := some c.oldest
        if isStale c.liveState c.oldest = true then
          getOplogReaderLoop cs (some c.member) oldest
            ({ w with r := { w.r with conn := none } }.emit
              [Event.resetConnection, Event.veto current (some 600)])
        else
          ({ w with toYield := cs }).setSyncTarget (some c.member)

/-- Embeds `BackgroundSync::getOplogReader` (bgsync.cpp 209-251).  `verify` throws when
the reader already holds a connection. -/
def getOplogReader (w : World G) : Outcome G :=
  if w.r.conn ≠ none then Outcome.threw w
  else Outcome.returned (getOplogReaderLoop w.toYield none none w)

end Select

/-! ## The tailing loop of `produce` -/

section Produce

variable {G : Type}

/-- Take the next answer of a scripted flag; `dflt` once the script is used up. -/
def poll (dflt : Bool) : List Bool → Bool × List Bool
  | [] => (dflt, [])
  | b :: bs => (b, bs)

/-- Modelled from the spec: `forced_resync_requested()` of the membership service,
in the code `theReplSet->gotForceSync()`; the answer comes from the script. -/
def World.gotForceSync (w : World G) : Bool × World G :=
  ((poll false w.forceSync).1, { w with forceSync := (poll false w.forceSync).2 })

/-- Modelled from the spec: `is_primary()` of the membership service, in the code
`theReplSet->isPrimary()`; the answer comes from the script. -/
def World.isPrimary (w : World G) : Bool × World G :=
  ((poll false w.primary).1, { w with primary := (poll false w.primary).2 })

/-- Modelled from the spec: the health state of the current target, in the code
`_currentSyncTarget->hbinfo().hbstate.readable()`; the answer comes from the
script. -/
def World.targetReadable (w : World G) : Bool × World G :=
  ((poll true w.readable).1, { w with readable := (poll true w.readable).2 })

/-- Modelled from the spec: whether the reader still buffers a record, in the code
`r.moreInCurrentBatch()`. -/
def World.moreInCurrentBatch (w : World G) : Bool :=
  !w.r.batch.isEmpty

/-- Modelled from the spec: `more()` of the reader adapter, in the code `r.more()`:
true when the current batch still holds a record; otherwise the next batch is
requested from the server and the answer is whether it holds one. -/
def World.more (w : World G) : Bool × World G :=
  if w.moreInCurrentBatch = true then (true, w)
  else
    match w.incoming with
    | [] => (false, w)
    | b :: bs => (!b.isEmpty, { w with r := { w.r with batch := b }, incoming := bs })

/-- Modelled from the spec: `query_from(gtid_inclusive)` of the reader adapter, in
the code `r.tailingQueryGTE(rsoplog, _lastGTIDFetched)`; whether a cursor results
and what its first batch holds comes from the script. -/
def World.tailingQueryGTE (w : World G) : World G :=
  match w.query with
  | none => { w with r := { w.r with haveCursor := false, batch := [] },
                     trace := w.trace ++ [Event.tailingQueryGTE] }
  | some b => { w with r := { w.r with haveCursor := true, batch := b },
                       trace := w.trace ++ [Event.tailingQueryGTE] }

/-- Modelled from the spec: `tail_check()` of the reader adapter, in the code
`r.tailCheck()`: the reader gives up its cursor when the script says the cursor
died.  (`batch` is left as it is; without a cursor the code does not read it.) -/
def World.tailCheck (w : World G) : World G :=
  if (poll false w.tailChecks).1 = true then
    { w with tailChecks := (poll false w.tailChecks).2, trace := w.trace ++ [Event.tailCheck] }
  else
    { w with tailChecks := (poll false w.tailChecks).2,
             r := { w.r with haveCursor := false },
             trace := w.trace ++ [Event.tailCheck] }

/-- Lines 162-175 of bgsync.cpp for the record `x` at the head of the batch:
`nextSafe` delivers it (the fetch ends at `t1`), only then is the `Timer`
constructed, `_mutex` is acquired at `t2`, and `timer.millis()` is added to
`waitTime` while `numElems` is incremented, both in the unsigned arithmetic of
their fields (modulo `2^64 = 18446744073709551616` and `2^32 = 4294967296`). -/
def World.fetch (w : World G) (x : Incoming) (rest : List Incoming) : World G :=
  let t1 := w.now + x.fetchMs
  let timer := t1
  let t2 := t1 + x.lockMs
  let millis := t2 - timer
  { w with
    r := { w.r with batch := rest }
    now := t2
    bg := { w.bg with
      queueCounter :=
        { waitTime := (w.bg.queueCounter.waitTime + millis) % 18446744073709551616
          numElems := (w.bg.queueCounter.numElems + 1) % 4294967296 } }
    trace := w.trace ++ [Event.fetched x.op millis] }

/-- Where control goes after a piece of a loop body: on to the next statement or
iteration, out of the inner loop (`break`), out of `produce` (`return`), or up
the stack with an exception. -/
inductive Step (G : Type) where
  | next (w : World G)
  | brk (w : World G)
  | ret (w : World G)
  | threw (w : World G)
  deriving DecidableEq

/-- The world a step ends in. -/
def Step.world : Step G → World G
  | .next w => w
  | .brk w => w
  | .ret w => w
  | .threw w => w

/-- Lines 133-158: the block guarded by `!r.moreInCurrentBatch()`.  `ret` is one of
the three `return`s; `next` continues at line 160. -/
def emptyBatchChecks (w : World G) : Step G :=
  if w.moreInCurrentBatch = true then Step.next w
  else
    let fs := w.gotForceSync
    if fs.1 = true then Step.ret fs.2
    else
      let p := fs.2.isPrimary
      if p.1 = true then Step.ret p.2
      else
        match p.2.bg.currentSyncTarget with
        | none => Step.ret p.2
        | some _ =>
          let rd := p.2.targetReadable
          if rd.1 = false then Step.ret rd.2
          else Step.next (rd.2.more).2

/-- One pass through the body of the inner `while` (lines 133-175). -/
def innerBody (w : World G) : Step G :=
  match emptyBatchChecks w with
  | Step.next w1 =>
    let m := w1.more
    if m.1 = false then Step.brk m.2
    else
      match m.2.r.batch with
      | [] => Step.threw m.2
      | x :: rest => Step.next (m.2.fetch x rest)
  | s => s

/-- Lines 178-190: the code between the end of the inner loop and the end of the
outer loop body.  `next` loops back to the outer `while`. -/
def afterInner (w : World G) : Step G :=
  match w.bg.currentSyncTarget with
  | none => Step.ret w
  | some _ =>
    let rd := w.targetReadable
    if rd.1 = false then Step.ret rd.2
    else
      let w1 := rd.2.tailCheck
      if w1.r.haveCursor = false then Step.ret w1 else Step.next w1

/-- The two nested `while (!inShutdown())` loops (lines 131-193).  The first
argument scripts the answers of `inShutdown()`, one per evaluation of a loop
guard; once it is used up the process is shutting down.  The Boolean tells
whether control stands at the guard of the inner loop (`true`) or of the outer
loop (`false`). -/
def tailLoop : List Bool → Bool → World G → Outcome G
  | [], false, w => Outcome.returned w
  | true :: _, false, w => Outcome.returned w
  | false :: ps, false, w => tailLoop ps true w
  | [], true, w => Outcome.returned (afterInner w).world
  | true :: ps, true, w =>
    match afterInner w with
    | Step.next w1 => tailLoop ps false w1
    | s => Outcome.returned s.world
  | false :: ps, true, w =>
    match innerBody w with
    | Step.next w1 => tailLoop ps true w1
    | Step.brk w1 =>
      (match afterInner w1 with
       | Step.next w2 => tailLoop ps false w2
       | s => Outcome.returned s.world)
    | Step.ret w1 => Outcome.returned w1
    | Step.threw w1 => Outcome.threw w1

/-- Embeds `BackgroundSync::isRollbackRequired` (bgsync.cpp 253-257): `::abort()` halts
the process before any value is returned; `none` stands for that halt. -/
def isRollbackRequired (_w : World G) : Option Bool :=
  none

variable [LinearOrder G]

/-- Embeds `BackgroundSync::produce` (bgsync.cpp 100-194).  The argument `shutdown`
scripts the answers of `inShutdown()` for the loop guards. -/
def produce (shutdown : List Bool) (w : World G) : Outcome G :=
  match getOplogReader { w with r := OplogReader.new } with
  | Outcome.returned w1 =>
    match w1.bg.currentSyncTarget with
    | none => Outcome.returned (w1.emit [Event.sleepsecs 1])
    | some _ =>
      let w2 := w1.tailingQueryGTE
      if w2.r.haveCursor = false then Outcome.returned w2
      else
        match isRollbackRequired w2 with
        | none => Outcome.aborted w2
        | some true => Outcome.returned w2
        | some false => tailLoop shutdown false w2
  | o => o

end Produce

/-! ## The singleton -/

/-- Embeds `BackgroundSync::get` (bgsync.cpp 36-42) on the static slot `s_instance`:
the returned pointer and the slot afterwards. -/
def BackgroundSync.get (inShutdown : Bool) (s_instance : Option BackgroundSync) :
    Option BackgroundSync × Option BackgroundSync :=
  let s := if s_instance = none ∧ inShutdown = false then some BackgroundSync.new else s_instance
  (s, s)

/-! ## Observations on traces and outcomes -/

section Observe

variable {G : Type} [LinearOrder G]

/-- Whether the call returned to its caller. -/
def Outcome.isReturned : Outcome G → Bool
  | Outcome.returned _ => true
  | _ => false

/-- A candidate the selection accepts: `r.connect` succeeds and `isStale` is false. -/
def Candidate.viable (c : Candidate G) : Bool :=
  c.connects && !isStale c.liveState c.oldest

/-- The `goStale` calls of a trace, in order. -/
def goStaleCalls (es : List (Event G)) : List (Member × Option G) :=
  es.filterMap fun e => match e with
    | Event.goStale m g => some (m, g)
    | _ => none

/-- The members `_currentSyncTarget` was set to (line 234), in order. -/
def targetSets (es : List (Event G)) : List Member :=
  es.filterMap fun e => match e with
    | Event.setSyncTarget (some m) => some m
    | _ => none

/-- The hosts `r.connect` was called with, in order. -/
def connectAttempts (es : List (Event G)) : List String :=
  es.filterMap fun e => match e with
    | Event.connect h _ => some h
    | _ => none

/-- The `veto` calls of a trace, in order. -/
def vetoes (es : List (Event G)) : List (String × Option Nat) :=
  es.filterMap fun e => match e with
    | Event.veto h s => some (h, s)
    | _ => none

/-- What the local variables `stale` and `oldest` hold once the candidates `cs`
have all been evaluated without success: every connecting candidate overwrites
both, so the pair is the last connecting member of `cs`, or the initial pair when
none connects. -/
def lastStale : List (Candidate G) → Option Member → Option G → Option (Member × Option G)
  | [], stale, oldest => stale.map fun m => (m, oldest)
  | c :: cs, stale, oldest =>
    if c.connects = true then lastStale cs (some c.member) (some c.oldest)
    else lastStale cs stale oldest


/-- The `timer.millis()` values of the records fetched in a trace, in order. -/
def fetchTimes (es : List (Event G)) : List Nat :=
  es.filterMap fun e => match e with
    | Event.fetched _ ms => some ms
    | _ => none

/-- The records fetched in a trace, in order. -/
def fetchedOps (es : List (Event G)) : List Nat :=
  es.filterMap fun e => match e with
    | Event.fetched op _ => some op
    | _ => none

/-- The records the cursor has yet to deliver, in cursor order: the rest of the
current batch, then the batches the server will send. -/
def World.pending (w : World G) : List Nat :=
  (w.r.batch ++ w.incoming.flatten).map Incoming.op

/-- The events appended to the trace between `w` and a later world `w1`. -/
def World.eventsSince (w1 w : World G) : List (Event G) :=
  w1.trace.drop w.trace.length

/-- The world after lines 162-175 have run once for each record of `xs`, the
current batch being `xs ++ rest`. -/
def drainBatch : List Incoming → List Incoming → World G → World G
  | [], _, w => w
  | x :: xs, rest, w => drainBatch xs rest (w.fetch x (xs ++ rest))

/-- What any stretch of the tailing loop does to the observable state, `w1` being
the later world: the sync target is untouched, the trace only grows, the new
events contain no `veto`, every fetched record adds one to `numElems` and its
timer reading to `waitTime` in the unsigned arithmetic of the two fields (for
counters that start within the range of their fields), and the fetched records
are the ones that left the front of the cursor. -/
def Advances (w w1 : World G) : Prop :=
  w1.bg.currentSyncTarget = w.bg.currentSyncTarget ∧
  ∃ evs : List (Event G),
    w1.trace = w.trace ++ evs ∧
    vetoes evs = [] ∧
    (w.bg.queueCounter.numElems < 4294967296 →
      w1.bg.queueCounter.numElems
        = (w.bg.queueCounter.numElems + (fetchTimes evs).length) % 4294967296) ∧
    (w.bg.queueCounter.waitTime < 18446744073709551616 →
      w1.bg.queueCounter.waitTime
        = (w.bg.queueCounter.waitTime + (fetchTimes evs).sum) % 18446744073709551616) ∧
    fetchedOps evs ++ w1.pending = w.pending

/-- Spec wording of "the least-stale candidate observed": among the given stale
candidates the one whose oldest retained GTID is smallest (the earliest such
candidate on ties). -/
def specLeastStale : List (Candidate G) → Option (Candidate G)
  | [] => none
  | c :: cs =>
    match specLeastStale cs with
    | none => some c
    | some d => if c.oldest ≤ d.oldest then some c else some d

end Observe

/-! ## The producer thread -/

section Producer

variable {G : Type} [LinearOrder G]

/-- Modelled from the spec: the node state `theReplSet->state()` returns, reduced to
the three predicates the code asks of it (`MemberState` is declared outside the
translated sources; the spec lists the states primary, secondary, startup and
fatal). -/
structure MemberState where
  primary : Bool
  fatal : Bool
  startup : Bool
  deriving DecidableEq, Repr

/-- Embeds `BackgroundSync::_producerThread` (bgsync.cpp 84-98); `state` is the
answer of `theReplSet->state()`. -/
def _producerThread (state : MemberState) (shutdown : List Bool) (w : World G) : Outcome G :=
  if state.primary = true then Outcome.returned (w.emit [Event.sleepsecs 1])
  else if (state.fatal || state.startup) = true then Outcome.returned (w.emit [Event.sleepsecs 5])
  else produce shutdown w

/-- The backoffs of a trace, in order. -/
def sleeps (es : List (Event G)) : List Nat :=
  es.filterMap fun e => match e with
    | Event.sleepsecs n => some n
    | _ => none

end Producer

/-! ## The key comparator of the storage environment (`src/mongo/db/storage/env.cpp`) -/

section Compare

variable {B O : Type}

/-- Conversion of an integer to the 32-bit signed `int` of the same residue. -/
def toInt32 (x : Int) : Int :=
  (x + 2147483648) % 4294967296 - 2147483648

/-- A key as `dbt_bson_compare` reads it: `size` is `key->size`, `obj` the BSON
object at `key->data`, `other` the BSON object that starts right behind `obj`
(the code reads it only when bytes are left behind `obj`).  The declaration of
`DBT` (db.h) is not among the translated sources; `size` is its unsigned 32-bit
field. -/
structure DBT (B : Type) where
  size : Nat
  obj : B
  other : B

/-- The dictionary handle as far as the comparator reads it: the ordering made
from the key pattern stored in `db->cmp_descriptor`, `none` when the descriptor
is NULL. -/
structure DB (O : Type) where
  cmp_descriptor : Option O

/-- The value of `int key_bytes_left = key->size - obj.objsize()` (env.cpp 72-73):
the difference is taken in 32-bit arithmetic and stored in an `int`. -/
def bytesLeft (objsize : B → Int) (key : DBT B) : Int :=
  toInt32 ((key.size : Int) - objsize key.obj)

/-- Embeds `dbt_bson_compare` (env.cpp 47-96).  `objsize` and `woCompare` are
`BSONObj::objsize` and `BSONObj::woCompare`, declared outside the translated
sources and taken as parameters.  `none` stands for the failure of
`verify(db->cmp_descriptor)`; the `dassert`s are compiled out of release builds
and are not checked. -/
def dbt_bson_compare (objsize : B → Int) (woCompare : B → B → O → Int)
    (db : DB O) (key1 key2 : DBT B) : Option Int :=
  match db.cmp_descriptor with
  | none => none
  | some ordering =>
    let obj1 := key1.obj
    let obj2 := key2.obj
    let c := woCompare obj1 obj2 ordering
    if c < 0 then some (-1)
    else if c > 0 then some 1
    else
      let key1_bytes_left := bytesLeft objsize key1
      let key2_bytes_left := bytesLeft objsize key2
      if key1_bytes_left > 0 ∧ key2_bytes_left > 0 then
        let other_obj1 := key1.other
        let other_obj2 := key2.other
        let c := woCompare other_obj1 other_obj2 ordering
        if c < 0 then some (-1)
        else if c > 0 then some 1
        else some 0
      else if key1_bytes_left > 0 ∧ key2_bytes_left = 0 then some 1
      else if key1_bytes_left = 0 ∧ key2_bytes_left > 0 then some (-1)
      else some 0

end Compare

/-! ## Example worlds -/

/-- A fresh object and reader facing the candidates `cs`; nothing else scripted. -/
def selecting (cs : List (Candidate Nat)) : World Nat :=
  { bg := BackgroundSync.new, r := OplogReader.new, toYield := cs, query := none, incoming := [],
    tailChecks := [], forceSync := [], primary := [], readable := [], now := 0, trace := [] }

/-- A member that cannot be reached. -/
def unreachable (name : String) (live : Nat) : Candidate Nat :=
  { member := { fullName := name }, connects := false, oldest := 0, liveState := live }

/-- A member that connects, retaining operations from `oldest` on. -/
def reachable (name : String) (oldest live : Nat) : Candidate Nat :=
  { member := { fullName := name }, connects := true, oldest := oldest, liveState := live }

/-- A reader in the middle of tailing the member `t`, with the given current
batch, later batches and scripted answers. -/
def tailing (batch : List Incoming) (incoming : List (List Incoming))
    (forceSync primary readable tailChecks : List Bool) : World Nat :=
  { bg := { currentSyncTarget := some { fullName := "t" }, queueCounter := QueueCounter.new },
    r := { conn := some "t", haveCursor := true, batch := batch },
    toYield := [], query := none, incoming := incoming, tailChecks := tailChecks,
    forceSync := forceSync, primary := primary, readable := readable, now := 0, trace := [] }

/-- A reader tailing the member `t` whose object has already counted `numElems`
records and `waitTime` milliseconds, with the given current batch. -/
def tailingFrom (numElems waitTime : Nat) (batch : List Incoming) : World Nat :=
  { bg := { currentSyncTarget := some { fullName := "t" },
            queueCounter := { waitTime := waitTime, numElems := numElems } },
    r := { conn := some "t", haveCursor := true, batch := batch },
    toYield := [], query := none, incoming := [], tailChecks := [],
    forceSync := [], primary := [], readable := [], now := 0, trace := [] }

/-- A toy BSON layer for examples: an object is an integer, every object takes 5
bytes, and objects are compared by subtraction. -/
def toyCompare (a b : Int) (_ordering : Unit) : Int :=
  a - b

/-- The size of every toy object. -/
def toySize (_a : Int) : Int :=
  5


/-! ## Properties of the sync-target selection -/

section LastStale

variable {G : Type}

theorem lastStale_all_connect (cs : List (Candidate G)) (hne : cs ≠ []) :
    ∀ (stale : Option Member) (oldest : Option G), (∀ c ∈ cs, c.connects = true) →
      lastStale cs stale oldest = some ((cs.getLast hne).member, some (cs.getLast hne).oldest) := by
  induction cs with
  | nil => exact absurd rfl hne
  | cons c cs ih =>
    intro stale oldest hall
    have hc : c.connects = true := hall c (List.mem_cons_self c cs)
    cases cs with
    | nil => simp [lastStale, hc]
    | cons d ds =>
      have h := ih (List.cons_ne_nil d ds) (some c.member) (some c.oldest)
        (fun x hx => hall x (List.mem_cons_of_mem c hx))
      simp only [lastStale, hc, if_true] at h ⊢
      simpa using h

theorem lastStale_none_connect (cs : List (Candidate G)) :
    (∀ c ∈ cs, c.connects = false) → lastStale cs (none : Option Member) (none : Option G) = none := by
  induction cs with
  | nil => intro _; rfl
  | cons c cs ih =>
    intro hall
    have hc : c.connects = false := hall c (List.mem_cons_self c cs)
    simp [lastStale, hc, ih (fun x hx => hall x (List.mem_cons_of_mem c hx))]

theorem lastStale_isSome_of_connect (cs : List (Candidate G)) :
    ∀ (stale : Option Member) (oldest : Option G),
      (stale.isSome = true ∨ ∃ c ∈ cs, c.connects = true) → (lastStale cs stale oldest).isSome = true := by
  induction cs with
  | nil =>
    intro stale oldest h
    rcases h with h | ⟨c, hc, _⟩
    · cases stale <;> simp_all [lastStale]
    · cases hc
  | cons c cs ih =>
    intro stale oldest h
    cases hc : c.connects
    · simp only [lastStale, hc, Bool.false_eq_true, if_false]
      apply ih
      rcases h with h | ⟨d, hd, hdc⟩
      · exact Or.inl h
      · rcases List.mem_cons.mp hd with rfl | hd
        · rw [hc] at hdc; cases hdc
        · exact Or.inr ⟨d, hd, hdc⟩
    · simp only [lastStale, hc, if_true]
      exact ih (some c.member) (some c.oldest) (Or.inl rfl)

end LastStale

section SelectProps

variable {G : Type} [LinearOrder G]

theorem loop_cons_unreachable (c : Candidate G) (cs : List (Candidate G)) (stale : Option Member)
    (oldest : Option G) (w : World G) (hc : c.connects = false) :
    getOplogReaderLoop (c :: cs) stale oldest w
      = getOplogReaderLoop cs stale oldest
          (w.emit [Event.connect c.member.fullName false, Event.resetConnection,
            Event.veto c.member.fullName none]) := by
  simp [getOplogReaderLoop, hc]

theorem loop_cons_stale (c : Candidate G) (cs : List (Candidate G)) (stale : Option Member)
    (oldest : Option G) (w : World G) (hc : c.connects = true)
    (hs : isStale c.liveState c.oldest = true) :
    getOplogReaderLoop (c :: cs) stale oldest w
      = getOplogReaderLoop cs (some c.member) (some c.oldest)
          ({ w with r := { w.r with conn := none } }.emit
            [Event.connect c.member.fullName true, Event.resetConnection,
              Event.veto c.member.fullName (some 600)]) := by
  simp [getOplogReaderLoop, hc, hs, World.emit]

theorem loop_cons_viable (c : Candidate G) (cs : List (Candidate G)) (stale : Option Member)
    (oldest : Option G) (w : World G) (hc : c.connects = true)
    (hs : isStale c.liveState c.oldest = false) :
    getOplogReaderLoop (c :: cs) stale oldest w
      = ({ w with r := { w.r with conn := some c.member.fullName }, toYield := cs }.emit
            [Event.connect c.member.fullName true]).setSyncTarget (some c.member) := by
  simp [getOplogReaderLoop, hc, hs, World.emit, World.setSyncTarget]

theorem loop_target (cs : List (Candidate G)) : ∀ (stale : Option Member) (oldest : Option G) (w : World G),
    (getOplogReaderLoop cs stale oldest w).bg.currentSyncTarget
      = (cs.find? Candidate.viable).map Candidate.member := by
  induction cs with
  | nil => intro stale oldest w; simp [getOplogReaderLoop, World.setSyncTarget]
  | cons c cs ih =>
    intro stale oldest w
    cases hc : c.connects
    · rw [loop_cons_unreachable c cs stale oldest w hc, ih]
      simp [Candidate.viable, hc]
    · cases hs : isStale c.liveState c.oldest
      · rw [loop_cons_viable c cs stale oldest w hc hs]
        simp [Candidate.viable, hc, hs, World.setSyncTarget]
      · rw [loop_cons_stale c cs stale oldest w hc hs, ih]
        simp [Candidate.viable, hc, hs]

theorem loop_toYield (cs : List (Candidate G)) : ∀ (stale : Option Member) (oldest : Option G) (w : World G),
    (getOplogReaderLoop cs stale oldest w).toYield
      = (cs.dropWhile fun c => !c.viable).tail := by
  induction cs with
  | nil => intro stale oldest w; cases stale <;> simp [getOplogReaderLoop, World.setSyncTarget, World.emit]
  | cons c cs ih =>
    intro stale oldest w
    cases hc : c.connects
    · rw [loop_cons_unreachable c cs stale oldest w hc, ih]
      simp [Candidate.viable, hc, List.dropWhile]
    · cases hs : isStale c.liveState c.oldest
      · rw [loop_cons_viable c cs stale oldest w hc hs]
        simp [Candidate.viable, hc, hs, World.setSyncTarget, World.emit, List.dropWhile]
      · rw [loop_cons_stale c cs stale oldest w hc hs, ih]
        simp [Candidate.viable, hc, hs, List.dropWhile]

theorem loop_connectAttempts (cs : List (Candidate G)) : ∀ (stale : Option Member) (oldest : Option G) (w : World G),
    connectAttempts (getOplogReaderLoop cs stale oldest w).trace
      = connectAttempts w.trace
        ++ ((cs.takeWhile fun c => !c.viable) ++ (cs.find? Candidate.viable).toList).map
            fun c => c.member.fullName := by
  induction cs with
  | nil => intro stale oldest w; cases stale <;> simp [getOplogReaderLoop, World.setSyncTarget, World.emit, connectAttempts]
  | cons c cs ih =>
    intro stale oldest w
    cases hc : c.connects
    · rw [loop_cons_unreachable c cs stale oldest w hc, ih]
      simp [Candidate.viable, hc, List.takeWhile, World.emit, connectAttempts, List.filterMap_append]
    · cases hs : isStale c.liveState c.oldest
      · rw [loop_cons_viable c cs stale oldest w hc hs]
        simp [Candidate.viable, hc, hs, World.setSyncTarget, World.emit, List.takeWhile, connectAttempts, List.filterMap_append]
      · rw [loop_cons_stale c cs stale oldest w hc hs, ih]
        simp [Candidate.viable, hc, hs, List.takeWhile, World.emit, connectAttempts, List.filterMap_append]

theorem loop_targetSets (cs : List (Candidate G)) : ∀ (stale : Option Member) (oldest : Option G) (w : World G),
    targetSets (getOplogReaderLoop cs stale oldest w).trace
      = targetSets w.trace ++ ((cs.find? Candidate.viable).map Candidate.member).toList := by
  induction cs with
  | nil => intro stale oldest w; cases stale <;> simp [getOplogReaderLoop, World.setSyncTarget, World.emit, targetSets]
  | cons c cs ih =>
    intro stale oldest w
    cases hc : c.connects
    · rw [loop_cons_unreachable c cs stale oldest w hc, ih]
      simp [Candidate.viable, hc, World.emit, targetSets, List.filterMap_append]
    · cases hs : isStale c.liveState c.oldest
      · rw [loop_cons_viable c cs stale oldest w hc hs]
        simp [Candidate.viable, hc, hs, World.setSyncTarget, World.emit, targetSets, List.filterMap_append]
      · rw [loop_cons_stale c cs stale oldest w hc hs, ih]
        simp [Candidate.viable, hc, hs, World.emit, targetSets, List.filterMap_append]

theorem loop_goStaleCalls (cs : List (Candidate G)) : ∀ (stale : Option Member) (oldest : Option G) (w : World G),
    goStaleCalls (getOplogReaderLoop cs stale oldest w).trace
      = goStaleCalls w.trace ++
          (if (cs.find? Candidate.viable).isSome then [] else (lastStale cs stale oldest).toList) := by
  induction cs with
  | nil => intro stale oldest w; cases stale <;> simp [getOplogReaderLoop, World.setSyncTarget, World.emit, goStaleCalls, lastStale]
  | cons c cs ih =>
    intro stale oldest w
    cases hc : c.connects
    · rw [loop_cons_unreachable c cs stale oldest w hc, ih]
      simp [Candidate.viable, hc, World.emit, goStaleCalls, List.filterMap_append, lastStale]
    · cases hs : isStale c.liveState c.oldest
      · rw [loop_cons_viable c cs stale oldest w hc hs]
        simp [Candidate.viable, hc, hs, World.setSyncTarget, World.emit, goStaleCalls, List.filterMap_append]
      · rw [loop_cons_stale c cs stale oldest w hc hs, ih]
        simp [Candidate.viable, hc, hs, World.emit, goStaleCalls, List.filterMap_append, lastStale]

theorem getOplogReader_returns (w : World G) (h : w.r.conn = none) :
    getOplogReader w = Outcome.returned (getOplogReaderLoop w.toYield none none w) := by
  simp [getOplogReader, h]

/-- C1: when the reader holds no connection, `getOplogReader` returns with the
current sync target equal to the first candidate of the `getMemberToSyncTo`
sequence that connects and is not stale (none when there is no such candidate);
the candidates after that one are never requested (they are still to be yielded),
and `r.connect` was attempted exactly on the candidates up to and including it. -/
theorem getOplogReader_first_viable (w : World G) (h : w.r.conn = none) :
    (getOplogReader w).isReturned = true ∧
    (getOplogReader w).world.bg.getSyncTarget
      = (w.toYield.find? Candidate.viable).map Candidate.member ∧
    (getOplogReader w).world.toYield = (w.toYield.dropWhile fun c => !c.viable).tail ∧
    connectAttempts (getOplogReader w).world.trace
      = connectAttempts w.trace
        ++ ((w.toYield.takeWhile fun c => !c.viable) ++ (w.toYield.find? Candidate.viable).toList).map
            fun c => c.member.fullName := by
  rw [getOplogReader_returns w h]
  refine ⟨rfl, ?_, ?_, ?_⟩
  · exact loop_target _ _ _ _
  · exact loop_toYield _ _ _ _
  · exact loop_connectAttempts _ _ _ _

/-- Witness for C1: of an unreachable, a stale and two healthy candidates the first
healthy one becomes the target and the second healthy one is never requested. -/
theorem getOplogReader_first_viable_witness :
    (selecting [unreachable "a" 100, reachable "b" 150 100, reachable "c" 10 100,
        reachable "d" 5 100]).r.conn = none ∧
    (getOplogReader (selecting [unreachable "a" 100, reachable "b" 150 100, reachable "c" 10 100,
        reachable "d" 5 100])).world.bg.getSyncTarget = some { fullName := "c" } ∧
    (getOplogReader (selecting [unreachable "a" 100, reachable "b" 150 100, reachable "c" 10 100,
        reachable "d" 5 100])).world.toYield = [reachable "d" 5 100] ∧
    connectAttempts (getOplogReader (selecting [unreachable "a" 100, reachable "b" 150 100,
        reachable "c" 10 100, reachable "d" 5 100])).world.trace = ["a", "b", "c"] :=
  ⟨rfl, (getOplogReader_first_viable _ rfl).2.1, (getOplogReader_first_viable _ rfl).2.2.1,
    (getOplogReader_first_viable _ rfl).2.2.2⟩

/-- C2 fails as stated: both candidates connect and are stale, the least stale
one is `b` (oldest GTID 50), yet `goStale` is called with `c` and GTID 200. -/
theorem goStale_least_stale_counterexample :
    (∀ c ∈ [reachable "b" 50 10, reachable "c" 200 10],
      c.connects = true ∧ isStale c.liveState c.oldest = true) ∧
    (specLeastStale [reachable "b" 50 10, reachable "c" 200 10]).map
        (fun c => (c.member, some c.oldest)) = some ({ fullName := "b" }, some 50) ∧
    goStaleCalls (getOplogReader (selecting [reachable "b" 50 10, reachable "c" 200 10])).world.trace
      = [({ fullName := "c" }, some 200)] ∧
    goStaleCalls (getOplogReader (selecting [reachable "b" 50 10, reachable "c" 200 10])).world.trace
      ≠ ((specLeastStale [reachable "b" 50 10, reachable "c" 200 10]).map
          (fun c => (c.member, some c.oldest))).toList := by
  decide

/-- C2 (amended): for every non-empty candidate sequence in which every candidate
connects and is stale, `getOplogReader` calls `goStale` exactly once, passing the
last candidate of the sequence together with that candidate's oldest GTID, and
leaves the current sync target none. -/
theorem getOplogReader_all_stale (w : World G) (h : w.r.conn = none) (hne : w.toYield ≠ [])
    (hall : ∀ c ∈ w.toYield, c.connects = true ∧ isStale c.liveState c.oldest = true) :
    (getOplogReader w).isReturned = true ∧
    goStaleCalls (getOplogReader w).world.trace
      = goStaleCalls w.trace
        ++ [((w.toYield.getLast hne).member, some (w.toYield.getLast hne).oldest)] ∧
    (getOplogReader w).world.bg.getSyncTarget = none := by
  have hnone : w.toYield.find? Candidate.viable = none := by
    rw [List.find?_eq_none]
    intro c hc
    simp [Candidate.viable, (hall c hc).2]
  rw [getOplogReader_returns w h]
  refine ⟨rfl, ?_, ?_⟩
  · show goStaleCalls (getOplogReaderLoop w.toYield none none w).trace = _
    rw [loop_goStaleCalls, hnone,
      lastStale_all_connect w.toYield hne none none (fun c hc => (hall c hc).1)]
    simp
  · show (getOplogReaderLoop w.toYield none none w).bg.currentSyncTarget = none
    rw [loop_target, hnone]
    rfl

/-- Witness for C2 (amended): two stale candidates, `goStale` receives the second. -/
theorem getOplogReader_all_stale_witness :
    goStaleCalls (getOplogReader (selecting [reachable "b" 50 10, reachable "c" 200 10])).world.trace
      = [({ fullName := "c" }, some 200)] ∧
    (getOplogReader (selecting [reachable "b" 50 10, reachable "c" 200 10])).world.bg.getSyncTarget
      = none :=
  (getOplogReader_all_stale (selecting [reachable "b" 50 10, reachable "c" 200 10]) rfl
    (by decide) (by decide)).2

/-- C4 fails as stated: the candidate sequence is not empty, yet the invocation
neither sets the sync target to a member nor calls `goStale`. -/
theorem getOplogReader_neither_effect_counterexample :
    (selecting [unreachable "a" 100]).toYield ≠ [] ∧
    targetSets (getOplogReader (selecting [unreachable "a" 100])).world.trace = [] ∧
    goStaleCalls (getOplogReader (selecting [unreachable "a" 100])).world.trace = [] := by
  decide

/-- C4 (amended): one invocation of `getOplogReader` sets the sync target to a
member at most once, calls `goStale` at most once, never does both, and does
neither exactly when no candidate of the sequence connects (in particular when
the sequence is empty). -/
theorem getOplogReader_one_effect (w : World G) (h : w.r.conn = none) :
    (getOplogReader w).isReturned = true ∧
    (targetSets (getOplogReader w).world.trace).length
        + (goStaleCalls (getOplogReader w).world.trace).length
      = (targetSets w.trace).length + (goStaleCalls w.trace).length
        + (if ∀ c ∈ w.toYield, c.connects = false then 0 else 1) := by
  rw [getOplogReader_returns w h]
  refine ⟨rfl, ?_⟩
  show (targetSets (getOplogReaderLoop w.toYield none none w).trace).length
        + (goStaleCalls (getOplogReaderLoop w.toYield none none w).trace).length = _
  rw [loop_targetSets, loop_goStaleCalls]
  cases hv : w.toYield.find? Candidate.viable with
  | some c =>
    have hmem : c ∈ w.toYield := List.mem_of_find?_eq_some hv
    have hcv : c.viable = true := List.find?_some hv
    have hcc : c.connects = true := by
      simp only [Candidate.viable, Bool.and_eq_true] at hcv
      exact hcv.1
    have hnot : ¬ ∀ c ∈ w.toYield, c.connects = false := by
      intro hall
      rw [hall c hmem] at hcc
      cases hcc
    rw [if_neg hnot]
    simp
    omega
  | none =>
    by_cases hall : ∀ c ∈ w.toYield, c.connects = false
    · rw [if_pos hall, lastStale_none_connect w.toYield hall]
      simp
    · have hex : ∃ c ∈ w.toYield, c.connects = true := by
        by_contra hne
        apply hall
        intro c hc
        cases hcc : c.connects
        · rfl
        · exact absurd ⟨c, hc, hcc⟩ hne
      have hsome := lastStale_isSome_of_connect w.toYield (none : Option Member) (none : Option G)
        (Or.inr hex)
      cases hl : lastStale w.toYield (none : Option Member) (none : Option G) with
      | none => rw [hl] at hsome; cases hsome
      | some p =>
        rw [if_neg hall]
        simp
        omega

/-- Witness for C4 (amended): an unreachable and a stale candidate give one
`goStale` call and no target; an unreachable candidate alone gives neither. -/
theorem getOplogReader_one_effect_witness :
    (targetSets (getOplogReader (selecting [unreachable "a" 100, reachable "b" 150 100])).world.trace).length
        + (goStaleCalls (getOplogReader
            (selecting [unreachable "a" 100, reachable "b" 150 100])).world.trace).length
      = 1 :=
  (getOplogReader_one_effect (selecting [unreachable "a" 100, reachable "b" 150 100]) rfl).2

/-- C3: `isStale` is true exactly when the local live-state GTID is at or below
the remote oldest GTID, that is when `GTID::cmp` of the two is not positive; for a
fixed remote GTID it is false exactly for the local GTIDs above it. -/
theorem isStale_iff_le (l r : G) :
    (isStale l r = true ↔ GTID.cmp l r ≤ 0) ∧
    (isStale l r = true ↔ l ≤ r) ∧
    (isStale l r = false ↔ r < l) := by
  have hcmp : GTID.cmp l r ≤ 0 ↔ l ≤ r := by
    unfold GTID.cmp
    rcases lt_trichotomy l r with hlt | heq | hgt
    · simp [hlt, le_of_lt hlt]
    · simp [heq]
    · have h1 : ¬ l < r := not_lt.mpr (le_of_lt hgt)
      have h2 : ¬ l = r := ne_of_gt hgt
      simp [h1, h2, not_le.mpr hgt]
  have h1 : isStale l r = true ↔ GTID.cmp l r ≤ 0 := by
    unfold isStale
    split <;> simp_all
  refine ⟨h1, h1.trans hcmp, ?_⟩
  rw [← not_le, ← hcmp, ← h1]
  simp

/-- C8 fails as stated: with local GTID 100 the candidate `B` (oldest GTID 50) is
not stale, so it becomes the sync target; `B` is not vetoed and `C` is never
requested. -/
theorem getOplogReader_scenario_counterexample :
    isStale (100 : Nat) 50 = false ∧
    (getOplogReader (selecting [unreachable "A" 100, reachable "B" 50 100,
        reachable "C" 10 100])).world.bg.getSyncTarget ≠ some { fullName := "C" } ∧
    ("B", some 600) ∉ vetoes (getOplogReader (selecting [unreachable "A" 100, reachable "B" 50 100,
        reachable "C" 10 100])).world.trace := by
  decide

theorem isStale_of_le {l r : G} (h : l ≤ r) : isStale l r = true := by
  unfold isStale GTID.cmp
  rcases lt_or_eq_of_le h with hlt | heq
  · simp [hlt]
  · simp [heq]

theorem isStale_of_lt {l r : G} (h : r < l) : isStale l r = false := by
  unfold isStale GTID.cmp
  have h1 : ¬ l < r := not_lt.mpr (le_of_lt h)
  have h2 : ¬ l = r := ne_of_gt h
  simp [h1, h2]

/-- C8 (amended): for `[A, B, C]` with `A` unreachable, `B` connectable with oldest
GTID 50, `C` connectable with oldest GTID 10 and local GTID 100, `getOplogReader`
sets the sync target to `B`, vetoes only `A` (default cooldown) and never requests
`C`.  For every oldest GTID `b` of `B` at or above the local GTID 100 it returns
with the target set to `C`, `A` vetoed with the default cooldown and `B` vetoed
with a cooldown of 600; for every `b` below 100 the outcome is the one for 50. -/
theorem getOplogReader_scenario (b : Nat) :
    ((getOplogReader (selecting [unreachable "A" 100, reachable "B" 50 100,
        reachable "C" 10 100])).world.bg.getSyncTarget = some { fullName := "B" } ∧
      vetoes (getOplogReader (selecting [unreachable "A" 100, reachable "B" 50 100,
        reachable "C" 10 100])).world.trace = [("A", none)] ∧
      (getOplogReader (selecting [unreachable "A" 100, reachable "B" 50 100,
        reachable "C" 10 100])).world.toYield = [reachable "C" 10 100]) ∧
    (100 ≤ b →
      (getOplogReader (selecting [unreachable "A" 100, reachable "B" b 100,
        reachable "C" 10 100])).isReturned = true ∧
      (getOplogReader (selecting [unreachable "A" 100, reachable "B" b 100,
        reachable "C" 10 100])).world.bg.getSyncTarget = some { fullName := "C" } ∧
      vetoes (getOplogReader (selecting [unreachable "A" 100, reachable "B" b 100,
        reachable "C" 10 100])).world.trace = [("A", none), ("B", some 600)] ∧
      (getOplogReader (selecting [unreachable "A" 100, reachable "B" b 100,
        reachable "C" 10 100])).world.toYield = []) ∧
    (b < 100 →
      (getOplogReader (selecting [unreachable "A" 100, reachable "B" b 100,
        reachable "C" 10 100])).isReturned = true ∧
      (getOplogReader (selecting [unreachable "A" 100, reachable "B" b 100,
        reachable "C" 10 100])).world.bg.getSyncTarget = some { fullName := "B" } ∧
      vetoes (getOplogReader (selecting [unreachable "A" 100, reachable "B" b 100,
        reachable "C" 10 100])).world.trace = [("A", none)] ∧
      (getOplogReader (selecting [unreachable "A" 100, reachable "B" b 100,
        reachable "C" 10 100])).world.toYield = [reachable "C" 10 100]) := by
  have hc : isStale (100 : Nat) 10 = false := by decide
  refine ⟨by decide, ?_, ?_⟩
  · intro hb
    have hs : isStale (100 : Nat) b = true := isStale_of_le hb
    simp [getOplogReader, selecting, unreachable, reachable, OplogReader.new, getOplogReaderLoop,
      hs, hc, World.emit, World.setSyncTarget, vetoes, Outcome.world, Outcome.isReturned,
      BackgroundSync.getSyncTarget]
  · intro hb
    have hs : isStale (100 : Nat) b = false := isStale_of_lt hb
    simp [getOplogReader, selecting, unreachable, reachable, OplogReader.new, getOplogReaderLoop,
      hs, World.emit, World.setSyncTarget, vetoes, Outcome.world, Outcome.isReturned,
      BackgroundSync.getSyncTarget]

/-- Witness for C8 (amended): with oldest GTID 150 for `B` the target is `C`, `A` is
vetoed with the default cooldown and `B` with a cooldown of 600. -/
theorem getOplogReader_scenario_witness :
    (100 : Nat) ≤ 150 ∧
    (getOplogReader (selecting [unreachable "A" 100, reachable "B" 150 100,
        reachable "C" 10 100])).world.bg.getSyncTarget = some { fullName := "C" } ∧
    vetoes (getOplogReader (selecting [unreachable "A" 100, reachable "B" 150 100,
        reachable "C" 10 100])).world.trace = [("A", none), ("B", some 600)] :=
  ⟨by decide, ((getOplogReader_scenario 150).2.1 (by decide)).2.1,
    ((getOplogReader_scenario 150).2.1 (by decide)).2.2.1⟩

end SelectProps

/-! ## Properties of the tailing loop -/

section LoopProps

variable {G : Type}

theorem Advances.refl (w : World G) : Advances w w :=
  ⟨rfl, [], by simp, rfl, by intro h; simp [fetchTimes, Nat.mod_eq_of_lt h],
    by intro h; simp [fetchTimes, Nat.mod_eq_of_lt h], by simp [fetchedOps]⟩

theorem Advances.trans {w w1 w2 : World G} (h1 : Advances w w1) (h2 : Advances w1 w2) :
    Advances w w2 := by
  obtain ⟨ht1, e1, htr1, hv1, hn1, hw1, hp1⟩ := h1
  obtain ⟨ht2, e2, htr2, hv2, hn2, hw2, hp2⟩ := h2
  refine ⟨ht2.trans ht1, e1 ++ e2, ?_, ?_, ?_, ?_, ?_⟩
  · rw [htr2, htr1, List.append_assoc]
  · simp only [vetoes, List.filterMap_append] at hv1 hv2 ⊢
    rw [hv1, hv2]
    rfl
  · intro h
    have a1 := hn1 h
    have a2 := hn2 (by omega)
    simp only [fetchTimes, List.filterMap_append, List.length_append] at a1 a2 ⊢
    omega
  · intro h
    have a1 := hw1 h
    have a2 := hw2 (by omega)
    simp only [fetchTimes, List.filterMap_append, List.sum_append] at a1 a2 ⊢
    omega
  · simp only [fetchedOps, List.filterMap_append, List.append_assoc] at hp1 hp2 ⊢
    rw [hp2, hp1]

/-- A step that touches neither the object, the trace nor the cursor contents. -/
theorem Advances.of_same {w w1 : World G} (hbg : w1.bg = w.bg) (htr : w1.trace = w.trace)
    (hp : w1.pending = w.pending) : Advances w w1 :=
  ⟨by rw [hbg], [], by simp [htr], rfl,
    by intro h; simp [fetchTimes, hbg, Nat.mod_eq_of_lt h],
    by intro h; simp [fetchTimes, hbg, Nat.mod_eq_of_lt h],
    by simp [fetchedOps, hp]⟩

theorem advances_gotForceSync (w : World G) : Advances w w.gotForceSync.2 :=
  Advances.of_same rfl rfl rfl

theorem advances_isPrimary (w : World G) : Advances w w.isPrimary.2 :=
  Advances.of_same rfl rfl rfl

theorem advances_targetReadable (w : World G) : Advances w w.targetReadable.2 :=
  Advances.of_same rfl rfl rfl

theorem advances_more (w : World G) : Advances w w.more.2 := by
  unfold World.more
  split
  · exact Advances.refl w
  · rename_i hb
    split
    · exact Advances.refl w
    · rename_i b bs hinc
      refine Advances.of_same rfl rfl ?_
      have hbatch : w.r.batch = [] := by
        simpa [World.moreInCurrentBatch] using hb
      simp [World.pending, hinc, hbatch]

theorem advances_tailCheck (w : World G) : Advances w w.tailCheck := by
  unfold World.tailCheck
  split
  · exact ⟨rfl, [Event.tailCheck], rfl, rfl,
      by intro h; simp [fetchTimes, Nat.mod_eq_of_lt h],
      by intro h; simp [fetchTimes, Nat.mod_eq_of_lt h],
      by simp [fetchedOps, World.pending]⟩
  · exact ⟨rfl, [Event.tailCheck], rfl, rfl,
      by intro h; simp [fetchTimes, Nat.mod_eq_of_lt h],
      by intro h; simp [fetchTimes, Nat.mod_eq_of_lt h],
      by simp [fetchedOps, World.pending]⟩

theorem advances_fetch (w : World G) (x : Incoming) (rest : List Incoming)
    (hb : w.r.batch = x :: rest) : Advances w (w.fetch x rest) := by
  refine ⟨rfl, [Event.fetched x.op x.lockMs], ?_, rfl, ?_, ?_, ?_⟩
  · simp [World.fetch]
  · intro _
    simp [World.fetch, fetchTimes]
  · intro _
    simp [World.fetch, fetchTimes]
  · simp [World.fetch, fetchedOps, World.pending, hb]

theorem advances_emptyBatchChecks (w : World G) : Advances w (emptyBatchChecks w).world := by
  unfold emptyBatchChecks
  dsimp only
  have h1 := advances_gotForceSync w
  have h2 := h1.trans (advances_isPrimary w.gotForceSync.2)
  have h3 := h2.trans (advances_targetReadable w.gotForceSync.2.isPrimary.2)
  have h4 := h3.trans (advances_more w.gotForceSync.2.isPrimary.2.targetReadable.2)
  split
  · exact Advances.refl w
  · split
    · exact h1
    · split
      · exact h2
      · split
        · exact h2
        · split
          · exact h3
          · exact h4

theorem advances_innerBody (w : World G) : Advances w (innerBody w).world := by
  have h := advances_emptyBatchChecks w
  unfold innerBody
  split
  · rename_i w1 hw1
    rw [hw1] at h
    have h2 := h.trans (advances_more w1)
    dsimp only
    split
    · exact h2
    · split
      · exact h2
      · rename_i x rest hb
        exact h2.trans (advances_fetch _ x rest hb)
  · exact h

theorem advances_afterInner (w : World G) : Advances w (afterInner w).world := by
  unfold afterInner
  dsimp only
  have h1 := advances_targetReadable w
  have h2 := h1.trans (advances_tailCheck w.targetReadable.2)
  split
  · exact Advances.refl w
  · split
    · exact h1
    · split
      · exact h2
      · exact h2

theorem advances_tailLoop (ps : List Bool) :
    ∀ (b : Bool) (w : World G), Advances w (tailLoop ps b w).world := by
  induction ps with
  | nil =>
    intro b w
    cases b
    · exact Advances.refl w
    · exact advances_afterInner w
  | cons p ps ih =>
    intro b w
    cases p <;> cases b
    · exact ih true w
    · have hb := advances_innerBody w
      simp only [tailLoop]
      split
      · rename_i w1 hw1
        rw [hw1] at hb
        exact hb.trans (ih true w1)
      · rename_i w1 hw1
        rw [hw1] at hb
        have ha := advances_afterInner w1
        split
        · rename_i w2 hw2
          rw [hw2] at ha
          exact hb.trans (ha.trans (ih false w2))
        · exact hb.trans ha
      · rename_i w1 hw1
        rw [hw1] at hb
        exact hb
      · rename_i w1 hw1
        rw [hw1] at hb
        exact hb
    · exact Advances.refl w
    · have ha := advances_afterInner w
      simp only [tailLoop]
      split
      · rename_i w1 hw1
        rw [hw1] at ha
        exact ha.trans (ih false w1)
      · exact ha

theorem innerBody_fetch (w : World G) (x : Incoming) (rest : List Incoming)
    (hb : w.r.batch = x :: rest) : innerBody w = Step.next (w.fetch x rest) := by
  have hm : w.moreInCurrentBatch = true := by simp [World.moreInCurrentBatch, hb]
  simp [innerBody, emptyBatchChecks, World.more, hm, hb]

theorem drainBatch_loop (xs : List Incoming) :
    ∀ (rest : List Incoming) (ps : List Bool) (w : World G), w.r.batch = xs ++ rest →
      tailLoop (List.replicate xs.length false ++ ps) true w
        = tailLoop ps true (drainBatch xs rest w) := by
  induction xs with
  | nil => intro rest ps w _; rfl
  | cons x xs ih =>
    intro rest ps w hb
    have hstep := innerBody_fetch w x (xs ++ rest) hb
    have hnext : (w.fetch x (xs ++ rest)).r.batch = xs ++ rest := rfl
    show tailLoop (false :: (List.replicate xs.length false ++ ps)) true w = _
    simp only [tailLoop, hstep, drainBatch]
    exact ih rest ps _ hnext

theorem drainBatch_spec (xs : List Incoming) :
    ∀ (rest : List Incoming) (w : World G),
      (drainBatch xs rest w).r.batch = (if xs = [] then w.r.batch else rest) ∧
      (drainBatch xs rest w).trace = w.trace ++ xs.map (fun x => Event.fetched x.op x.lockMs) ∧
      (w.bg.queueCounter.numElems < 4294967296 →
        (drainBatch xs rest w).bg.queueCounter.numElems
          = (w.bg.queueCounter.numElems + xs.length) % 4294967296) ∧
      (w.bg.queueCounter.waitTime < 18446744073709551616 →
        (drainBatch xs rest w).bg.queueCounter.waitTime
          = (w.bg.queueCounter.waitTime + (xs.map Incoming.lockMs).sum) % 18446744073709551616) ∧
      (drainBatch xs rest w).bg.currentSyncTarget = w.bg.currentSyncTarget ∧
      (drainBatch xs rest w).forceSync = w.forceSync ∧
      (drainBatch xs rest w).primary = w.primary ∧
      (drainBatch xs rest w).readable = w.readable ∧
      (drainBatch xs rest w).tailChecks = w.tailChecks ∧
      (drainBatch xs rest w).incoming = w.incoming := by
  induction xs with
  | nil =>
    intro rest w
    refine ⟨by simp [drainBatch], by simp [drainBatch], ?_, ?_, rfl, rfl, rfl, rfl, rfl, rfl⟩
    · intro h
      simp [drainBatch, Nat.mod_eq_of_lt h]
    · intro h
      simp [drainBatch, Nat.mod_eq_of_lt h]
  | cons x xs ih =>
    intro rest w
    obtain ⟨h1, h2, h3, h4, h5, h6, h7, h8, h9, h10⟩ := ih rest (w.fetch x (xs ++ rest))
    simp only [drainBatch]
    refine ⟨?_, ?_, ?_, ?_, ?_, ?_, ?_, ?_, ?_, ?_⟩
    · rw [h1]
      by_cases hxs : xs = []
      · simp [hxs, World.fetch]
      · simp [hxs]
    · rw [h2]; simp [World.fetch]
    · intro _
      have hf : (w.fetch x (xs ++ rest)).bg.queueCounter.numElems
          = (w.bg.queueCounter.numElems + 1) % 4294967296 := rfl
      rw [h3 (by omega), hf, List.length_cons]
      omega
    · intro _
      have hf : (w.fetch x (xs ++ rest)).bg.queueCounter.waitTime
          = (w.bg.queueCounter.waitTime + x.lockMs) % 18446744073709551616 := by
        simp [World.fetch]
      rw [h4 (by omega), hf, List.map_cons, List.sum_cons]
      omega
    · rw [h5]; rfl
    · rw [h6]; rfl
    · rw [h7]; rfl
    · rw [h8]; rfl
    · rw [h9]; rfl
    · rw [h10]; rfl

theorem fetchTimes_map_fetched (xs : List Incoming) :
    fetchTimes (xs.map (fun x => (Event.fetched x.op x.lockMs : Event G)))
      = xs.map Incoming.lockMs := by
  induction xs with
  | nil => rfl
  | cons x xs ih =>
    simp only [List.map_cons]
    rw [← ih]
    rfl

/-- C5 fails as stated: `numElems` is a 32-bit field.  After `4294967295` counted
records the fetch of one more record leaves `numElems` at 0, not one higher, so
the counter has decreased; and from zeroed counters the loop that fetches
`4294967296` buffered records ends with `numElems` at 0, not at the number of
records fetched. -/
theorem tailLoop_counters_counterexample :
    ((tailingFrom 4294967295 0 [⟨1, 5, 0⟩]).bg.getCounters = (0, 4294967295) ∧
      fetchTimes ((tailLoop [false, false] true (tailingFrom 4294967295 0 [⟨1, 5, 0⟩])).world.eventsSince
        (tailingFrom 4294967295 0 [⟨1, 5, 0⟩])) = [0] ∧
      (tailLoop [false, false] true (tailingFrom 4294967295 0 [⟨1, 5, 0⟩])).world.bg.getCounters
        = (0, 0)) ∧
    ((tailingFrom 0 0 (List.replicate 4294967296 ⟨1, 5, 0⟩)).bg.queueCounter = QueueCounter.new ∧
      tailLoop (List.replicate 4294967296 false) true
          (tailingFrom 0 0 (List.replicate 4294967296 ⟨1, 5, 0⟩))
        = tailLoop [] true (drainBatch (List.replicate 4294967296 ⟨1, 5, 0⟩) []
            (tailingFrom 0 0 (List.replicate 4294967296 ⟨1, 5, 0⟩))) ∧
      (fetchTimes ((drainBatch (List.replicate 4294967296 ⟨1, 5, 0⟩) []
          (tailingFrom 0 0 (List.replicate 4294967296 ⟨1, 5, 0⟩))).eventsSince
          (tailingFrom 0 0 (List.replicate 4294967296 ⟨1, 5, 0⟩)))).length = 4294967296 ∧
      (drainBatch (List.replicate 4294967296 ⟨1, 5, 0⟩) []
          (tailingFrom 0 0 (List.replicate 4294967296 ⟨1, 5, 0⟩))).bg.queueCounter.numElems = 0) := by
  refine ⟨by decide, rfl, ?_, ?_, ?_⟩
  · have h := drainBatch_loop (List.replicate 4294967296 (⟨1, 5, 0⟩ : Incoming)) [] []
      (tailingFrom 0 0 (List.replicate 4294967296 ⟨1, 5, 0⟩)) (List.append_nil _).symm
    rw [List.length_replicate, List.append_nil] at h
    exact h
  · have h := (drainBatch_spec (List.replicate 4294967296 (⟨1, 5, 0⟩ : Incoming)) []
      (tailingFrom 0 0 (List.replicate 4294967296 ⟨1, 5, 0⟩))).2.1
    have h0 : (tailingFrom 0 0 (List.replicate 4294967296 ⟨1, 5, 0⟩)).trace = [] := rfl
    rw [World.eventsSince, h, h0, List.nil_append, List.length_nil, List.drop_zero,
      fetchTimes_map_fetched, List.length_map, List.length_replicate]
  · have h := (drainBatch_spec (List.replicate 4294967296 (⟨1, 5, 0⟩ : Incoming)) []
      (tailingFrom 0 0 (List.replicate 4294967296 ⟨1, 5, 0⟩))).2.2.1 (by decide)
    rw [h, List.length_replicate]
    rfl

/-- C5 (amended): whatever stretch of the tailing loop of `produce` runs, the
events it appends to the trace contain one `fetched` entry per record taken from
the cursor (the first records of the cursor, in order); for counters that start
within the range of their fields, `numElems` is the old value plus the number of
those records modulo `2^32` and `waitTime` the old value plus the sum of their
timer readings modulo `2^64`.  Starting from zeroed counters `getCounters`
reports the sum modulo `2^64` and the count modulo `2^32`, hence exactly the sum
and the count as long as these stay below `2^64` and `2^32`.  One fetch adds 1
and its timer reading in that arithmetic, and nothing else in the loop writes
the counters. -/
theorem tailLoop_counters (ps : List Bool) (b : Bool) (w : World G) :
    (tailLoop ps b w).world.trace = w.trace ++ (tailLoop ps b w).world.eventsSince w ∧
    fetchedOps ((tailLoop ps b w).world.eventsSince w) ++ (tailLoop ps b w).world.pending
      = w.pending ∧
    (w.bg.queueCounter.numElems < 4294967296 →
      (tailLoop ps b w).world.bg.queueCounter.numElems
        = (w.bg.queueCounter.numElems
            + (fetchTimes ((tailLoop ps b w).world.eventsSince w)).length) % 4294967296) ∧
    (w.bg.queueCounter.waitTime < 18446744073709551616 →
      (tailLoop ps b w).world.bg.queueCounter.waitTime
        = (w.bg.queueCounter.waitTime
            + (fetchTimes ((tailLoop ps b w).world.eventsSince w)).sum) % 18446744073709551616) ∧
    (w.bg.queueCounter = QueueCounter.new →
      (tailLoop ps b w).world.bg.getCounters
        = ((fetchTimes ((tailLoop ps b w).world.eventsSince w)).sum % 18446744073709551616,
           (fetchTimes ((tailLoop ps b w).world.eventsSince w)).length % 4294967296)) ∧
    (w.bg.queueCounter = QueueCounter.new →
      (fetchTimes ((tailLoop ps b w).world.eventsSince w)).length < 4294967296 →
      (fetchTimes ((tailLoop ps b w).world.eventsSince w)).sum < 18446744073709551616 →
      (tailLoop ps b w).world.bg.getCounters
        = ((fetchTimes ((tailLoop ps b w).world.eventsSince w)).sum,
           (fetchTimes ((tailLoop ps b w).world.eventsSince w)).length)) ∧
    (∀ (x : Incoming) (rest : List Incoming),
      (w.fetch x rest).trace = w.trace ++ [Event.fetched x.op x.lockMs] ∧
      (w.fetch x rest).bg.queueCounter.numElems
        = (w.bg.queueCounter.numElems + 1) % 4294967296 ∧
      (w.fetch x rest).bg.queueCounter.waitTime
        = (w.bg.queueCounter.waitTime + x.lockMs) % 18446744073709551616) := by
  obtain ⟨_, evs, htr, _, hn, hw, hp⟩ := advances_tailLoop ps b w
  have hev : (tailLoop ps b w).world.eventsSince w = evs := by
    simp [World.eventsSince, htr]
  rw [hev]
  have hzero : w.bg.queueCounter = QueueCounter.new →
      (tailLoop ps b w).world.bg.getCounters
        = ((fetchTimes evs).sum % 18446744073709551616, (fetchTimes evs).length % 4294967296) := by
    intro h0
    have h1 : w.bg.queueCounter.numElems = 0 := by rw [h0]; rfl
    have h2 : w.bg.queueCounter.waitTime = 0 := by rw [h0]; rfl
    have a1 := hn (by omega)
    have a2 := hw (by omega)
    rw [h1, Nat.zero_add] at a1
    rw [h2, Nat.zero_add] at a2
    simp only [BackgroundSync.getCounters, a1, a2]
  refine ⟨htr, hp, hn, hw, hzero, ?_, ?_⟩
  · intro h0 hlen hsum
    rw [hzero h0, Nat.mod_eq_of_lt hlen, Nat.mod_eq_of_lt hsum]
  · intro x rest
    simp [World.fetch]

/-- Witness for C5 (amended): from zeroed counters the loop fetches two buffered
records with timer readings 0 and 1, then returns on the pending forced resync. -/
theorem tailLoop_counters_witness :
    (tailing [⟨1, 5, 0⟩, ⟨2, 3, 1⟩] [] [true] [] [] []).bg.queueCounter = QueueCounter.new ∧
    fetchTimes ((tailLoop [false, false, false, false] false
        (tailing [⟨1, 5, 0⟩, ⟨2, 3, 1⟩] [] [true] [] [] [])).world.eventsSince
        (tailing [⟨1, 5, 0⟩, ⟨2, 3, 1⟩] [] [true] [] [] [])) = [0, 1] ∧
    (tailLoop [false, false, false, false] false
        (tailing [⟨1, 5, 0⟩, ⟨2, 3, 1⟩] [] [true] [] [] [])).world.bg.getCounters = (1, 2) :=
  ⟨rfl, by decide,
    (tailLoop_counters [false, false, false, false] false
      (tailing [⟨1, 5, 0⟩, ⟨2, 3, 1⟩] [] [true] [] [] [])).2.2.2.2.2.1 rfl (by decide) (by decide)⟩

/-- C9 fails as stated: one record is buffered, but `inShutdown()` is already
true at the guard of the inner loop; the record is not fetched (it is still in the
batch and `numElems` is 0), and the readability of the target is examined all
the same (its script has been consumed) before `produce` returns. -/
theorem inner_loop_shutdown_counterexample :
    (tailing [⟨1, 5, 0⟩] [] [] [] [true] [true]).r.batch.length = 1 ∧
    (tailLoop [true] true (tailing [⟨1, 5, 0⟩] [] [] [] [true] [true])).isReturned = true ∧
    (tailLoop [true] true (tailing [⟨1, 5, 0⟩] [] [] [] [true] [true])).world.r.batch
      = [⟨1, 5, 0⟩] ∧
    (tailLoop [true] true (tailing [⟨1, 5, 0⟩] [] [] [] [true] [true])).world.bg.queueCounter.numElems
      = 0 ∧
    (tailing [⟨1, 5, 0⟩] [] [] [] [true] [true]).readable = [true] ∧
    (tailLoop [true] true (tailing [⟨1, 5, 0⟩] [] [] [] [true] [true])).world.readable = [] := by
  decide

/-- C9 (amended): as long as `inShutdown()` is false at the guard of the inner
loop, a batch holding the records `xs` (followed by `rest`) is drained first: after
`xs.length` iterations the loop stands at its guard again with exactly the
records `xs` fetched in cursor order, each counted once, and with the scripts of
the forced-resync flag, the primary state and the target's readability untouched,
whatever they hold.  With an empty batch one pass through the body returns on the
first of: forced resync pending, node is primary, target untracked, target
unreadable; the later conditions are then not examined and the trace (hence the
veto list) is unchanged. -/
theorem inner_loop_order (w : World G) (xs rest : List Incoming) (ps : List Bool)
    (hb : w.r.batch = xs ++ rest) :
    (tailLoop (List.replicate xs.length false ++ ps) true w
        = tailLoop ps true (drainBatch xs rest w) ∧
      (drainBatch xs rest w).r.batch = rest ∧
      (drainBatch xs rest w).trace = w.trace ++ xs.map (fun x => Event.fetched x.op x.lockMs) ∧
      (w.bg.queueCounter.numElems < 4294967296 →
        (drainBatch xs rest w).bg.queueCounter.numElems
          = (w.bg.queueCounter.numElems + xs.length) % 4294967296) ∧
      (drainBatch xs rest w).forceSync = w.forceSync ∧
      (drainBatch xs rest w).primary = w.primary ∧
      (drainBatch xs rest w).readable = w.readable) ∧
    (∀ v : World G, v.r.batch = [] →
      ((poll false v.forceSync).1 = true →
        innerBody v = Step.ret { v with forceSync := v.forceSync.tail }) ∧
      ((poll false v.forceSync).1 = false → (poll false v.primary).1 = true →
        innerBody v = Step.ret { v with forceSync := v.forceSync.tail, primary := v.primary.tail }) ∧
      ((poll false v.forceSync).1 = false → (poll false v.primary).1 = false →
        v.bg.currentSyncTarget = none →
        innerBody v = Step.ret { v with forceSync := v.forceSync.tail, primary := v.primary.tail }) ∧
      ((poll false v.forceSync).1 = false → (poll false v.primary).1 = false →
        v.bg.currentSyncTarget ≠ none → (poll true v.readable).1 = false →
        innerBody v = Step.ret { v with forceSync := v.forceSync.tail, primary := v.primary.tail,
                                        readable := v.readable.tail })) := by
  refine ⟨⟨drainBatch_loop xs rest ps w hb, ?_, (drainBatch_spec xs rest w).2.1,
    (drainBatch_spec xs rest w).2.2.1, (drainBatch_spec xs rest w).2.2.2.2.2.1,
    (drainBatch_spec xs rest w).2.2.2.2.2.2.1, (drainBatch_spec xs rest w).2.2.2.2.2.2.2.1⟩, ?_⟩
  · rw [(drainBatch_spec xs rest w).1]
    by_cases hxs : xs = []
    · simp [hxs, hb]
    · simp [hxs]
  · intro v hv
    have hm : v.moreInCurrentBatch = false := by simp [World.moreInCurrentBatch, hv]
    have tl : ∀ (d : Bool) (l : List Bool), (poll d l).2 = l.tail := by
      intro d l; cases l <;> rfl
    refine ⟨?_, ?_, ?_, ?_⟩
    · intro hf
      simp [innerBody, emptyBatchChecks, hm, World.gotForceSync, hf, tl]
    · intro hf hp
      simp [innerBody, emptyBatchChecks, hm, World.gotForceSync, World.isPrimary, hf, hp, tl]
    · intro hf hp ht
      simp [innerBody, emptyBatchChecks, hm, World.gotForceSync, World.isPrimary, hf, hp, ht, tl]
    · intro hf hp ht hr
      cases htg : v.bg.currentSyncTarget with
      | none => exact absurd htg ht
      | some m =>
        simp [innerBody, emptyBatchChecks, hm, World.gotForceSync, World.isPrimary,
          World.targetReadable, hf, hp, htg, hr, tl]

/-- Witness for C9 (amended): with the forced-resync flag and the primary state
already set, the two buffered records are fetched first and in order, and both
scripts are still untouched when the loop reaches its guard with an empty batch. -/
theorem inner_loop_order_witness :
    (tailing [⟨7, 5, 0⟩, ⟨8, 3, 1⟩] [] [true] [true] [] []).r.batch = [⟨7, 5, 0⟩, ⟨8, 3, 1⟩] ++ [] ∧
    tailLoop [false, false, false] true (tailing [⟨7, 5, 0⟩, ⟨8, 3, 1⟩] [] [true] [true] [] [])
      = tailLoop [false] true
          (drainBatch [⟨7, 5, 0⟩, ⟨8, 3, 1⟩] [] (tailing [⟨7, 5, 0⟩, ⟨8, 3, 1⟩] [] [true] [true] [] [])) ∧
    (drainBatch [⟨7, 5, 0⟩, ⟨8, 3, 1⟩] []
        (tailing [⟨7, 5, 0⟩, ⟨8, 3, 1⟩] [] [true] [true] [] [])).trace
      = [Event.fetched 7 0, Event.fetched 8 1] ∧
    (drainBatch [⟨7, 5, 0⟩, ⟨8, 3, 1⟩] []
        (tailing [⟨7, 5, 0⟩, ⟨8, 3, 1⟩] [] [true] [true] [] [])).forceSync = [true] ∧
    (drainBatch [⟨7, 5, 0⟩, ⟨8, 3, 1⟩] []
        (tailing [⟨7, 5, 0⟩, ⟨8, 3, 1⟩] [] [true] [true] [] [])).primary = [true] :=
  have h := inner_loop_order (tailing [⟨7, 5, 0⟩, ⟨8, 3, 1⟩] [] [true] [true] [] [])
    [⟨7, 5, 0⟩, ⟨8, 3, 1⟩] [] [false] rfl
  ⟨rfl, h.1.1, h.1.2.2.1, h.1.2.2.2.2.1, h.1.2.2.2.2.2.1⟩

/-- C10 fails as stated: the fetch of the record starts at time 0 and completes at
time 5, yet nothing is added to `waitTime`. -/
theorem wait_time_not_fetch_duration_counterexample :
    (tailing [⟨1, 5, 0⟩] [] [] [] [] []).now = 0 ∧
    (tailing [⟨1, 5, 0⟩] [] [] [] [] []).bg.queueCounter.waitTime = 0 ∧
    innerBody (tailing [⟨1, 5, 0⟩] [] [] [] [] [])
      = Step.next ((tailing [⟨1, 5, 0⟩] [] [] [] [] []).fetch ⟨1, 5, 0⟩ []) ∧
    (innerBody (tailing [⟨1, 5, 0⟩] [] [] [] [] [])).world.now = 0 + 5 ∧
    (innerBody (tailing [⟨1, 5, 0⟩] [] [] [] [] [])).world.bg.queueCounter.waitTime = 0 ∧
    (innerBody (tailing [⟨1, 5, 0⟩] [] [] [] [] [])).world.bg.queueCounter.waitTime
      ≠ (tailing [⟨1, 5, 0⟩] [] [] [] [] []).bg.queueCounter.waitTime + (5 - 0) := by
  decide

/-- C10 (amended): for the record `x` at the head of the batch, whose fetch starts
at `t0 = w.now` and completes at `t1 = w.now + x.fetchMs`, the `Timer` is
constructed at `t1`, after the fetch; the counter is updated at the time `t2` the
world ends in, and the amount added to `waitTime` is `t2 - t1` (the time spent
between the construction of the timer and its reading under the mutex), which
does not contain the fetch duration `t1 - t0`; the addition is that of the
unsigned 64-bit field. -/
theorem wait_time_is_timer_reading (w : World G) (x : Incoming) (rest : List Incoming)
    (hb : w.r.batch = x :: rest) :
    innerBody w = Step.next (w.fetch x rest) ∧
    (w.fetch x rest).now = w.now + x.fetchMs + x.lockMs ∧
    (w.fetch x rest).bg.queueCounter.waitTime
      = (w.bg.queueCounter.waitTime + ((w.fetch x rest).now - (w.now + x.fetchMs)))
          % 18446744073709551616 ∧
    (w.fetch x rest).bg.queueCounter.waitTime
      = (w.bg.queueCounter.waitTime + x.lockMs) % 18446744073709551616 := by
  refine ⟨innerBody_fetch w x rest hb, rfl, ?_, ?_⟩
  · simp [World.fetch]
  · simp [World.fetch]

/-- Witness for C10 (amended): a fetch lasting 5 followed by a wait of 2 for the
mutex adds 2. -/
theorem wait_time_is_timer_reading_witness :
    (innerBody (tailing [⟨1, 5, 2⟩] [] [] [] [] [])).world.now = 7 ∧
    (innerBody (tailing [⟨1, 5, 2⟩] [] [] [] [] [])).world.bg.queueCounter.waitTime = 2 :=
  have h := wait_time_is_timer_reading (tailing [⟨1, 5, 2⟩] [] [] [] [] []) ⟨1, 5, 2⟩ [] rfl
  ⟨by rw [h.1]; exact h.2.1, by rw [h.1]; exact h.2.2.2⟩

theorem tailingQueryGTE_bg (w : World G) : w.tailingQueryGTE.bg = w.bg := by
  unfold World.tailingQueryGTE
  split <;> rfl

end LoopProps

/-! ## Properties of `produce` and of the singleton -/

section ProduceProps

variable {G : Type} [LinearOrder G]

/-- C6 fails as stated: a target is selected, the tailing query leaves no cursor,
`produce` returns, and `getSyncTarget` still returns the selected member. -/
theorem produce_target_counterexample :
    (getOplogReader (selecting [reachable "c" 10 100])).world.bg.getSyncTarget
      = some { fullName := "c" } ∧
    (produce [] (selecting [reachable "c" 10 100])).isReturned = true ∧
    (produce [] (selecting [reachable "c" 10 100])).world.r.haveCursor = false ∧
    (produce [] (selecting [reachable "c" 10 100])).world.bg.getSyncTarget
      = some { fullName := "c" } ∧
    (produce [] (selecting [reachable "c" 10 100])).world.bg.getSyncTarget ≠ none := by
  decide

/-- C6 (amended): `produce` never writes the current sync target after
`getOplogReader` has selected it: however `produce` ends after the member `m` was
selected, `getSyncTarget` returns `m` afterwards; and the tailing loop, started
at either loop guard in any world and left in any way (forced resync, primary,
target untracked or unreadable, tail check, shutdown), ends with the sync target
it started with. -/
theorem produce_keeps_target (ps : List Bool) (w : World G) (m : Member)
    (h : (getOplogReader { w with r := OplogReader.new }).world.bg.getSyncTarget = some m) :
    (produce ps w).world.bg.getSyncTarget = some m ∧
    (∀ (b : Bool) (v : World G),
      (tailLoop ps b v).world.bg.getSyncTarget = v.bg.getSyncTarget) := by
  constructor
  · have hret := getOplogReader_returns ({ w with r := OplogReader.new } : World G) rfl
    rw [hret] at h
    unfold produce
    rw [hret]
    generalize @getOplogReaderLoop G _ _ none none _ = w1 at h ⊢
    simp only [Outcome.world, BackgroundSync.getSyncTarget] at h
    have hbg : w1.tailingQueryGTE.bg.currentSyncTarget = some m := by
      rw [tailingQueryGTE_bg, h]
    simp only [h, isRollbackRequired]
    by_cases hc : w1.tailingQueryGTE.r.haveCursor = false
    · rw [if_pos hc]
      exact hbg
    · rw [if_neg hc]
      exact hbg
  · intro b v
    exact (advances_tailLoop ps b v).1

/-- Witness for C6 (amended): the run in which the query leaves no cursor. -/
theorem produce_keeps_target_witness :
    (produce [] (selecting [reachable "c" 10 100])).isReturned = true ∧
    (produce [] (selecting [reachable "c" 10 100])).world.bg.getSyncTarget
      = some { fullName := "c" } :=
  ⟨by decide, (produce_keeps_target [] (selecting [reachable "c" 10 100]) { fullName := "c" }
    (by decide)).1⟩

/-- C7 fails as stated: during shutdown a call of `get` on a slot that already
holds an instance returns that instance, not none. -/
theorem get_in_shutdown_counterexample :
    (BackgroundSync.get true (some BackgroundSync.new)).1 = some BackgroundSync.new ∧
    (BackgroundSync.get true (some BackgroundSync.new)).1 ≠ none := by
  decide

/-- C7 (amended): `get` returns the content of the slot as it is after the call;
a slot that holds an instance is returned unchanged whether or not the process is
shutting down; on an empty slot `get` returns none and leaves the slot empty
during shutdown, and otherwise creates the instance, stores it and returns it. -/
theorem get_lazy_init (inShutdown : Bool) (slot : Option BackgroundSync) (i : BackgroundSync) :
    (BackgroundSync.get inShutdown slot).1 = (BackgroundSync.get inShutdown slot).2 ∧
    BackgroundSync.get inShutdown (some i) = (some i, some i) ∧
    BackgroundSync.get true none = (none, none) ∧
    BackgroundSync.get false none = (some BackgroundSync.new, some BackgroundSync.new) := by
  refine ⟨rfl, ?_, rfl, rfl⟩
  simp [BackgroundSync.get]

end ProduceProps

/-! ## Properties of the producer thread -/

section QueryProps

variable {G : Type}

theorem tailingQueryGTE_fetchTimes (w : World G) :
    fetchTimes w.tailingQueryGTE.trace = fetchTimes w.trace := by
  unfold World.tailingQueryGTE
  split <;> simp [fetchTimes, List.filterMap_append]

end QueryProps

section ProducerProps

variable {G : Type} [LinearOrder G]

theorem loop_queueCounter (cs : List (Candidate G)) :
    ∀ (stale : Option Member) (oldest : Option G) (w : World G),
      (getOplogReaderLoop cs stale oldest w).bg.queueCounter = w.bg.queueCounter := by
  induction cs with
  | nil =>
    intro stale oldest w
    cases stale <;> simp [getOplogReaderLoop, World.setSyncTarget, World.emit]
  | cons c cs ih =>
    intro stale oldest w
    cases hc : c.connects
    · rw [loop_cons_unreachable c cs stale oldest w hc, ih]
      rfl
    · cases hs : isStale c.liveState c.oldest
      · rw [loop_cons_viable c cs stale oldest w hc hs]
        rfl
      · rw [loop_cons_stale c cs stale oldest w hc hs, ih]
        rfl

theorem loop_fetchTimes (cs : List (Candidate G)) :
    ∀ (stale : Option Member) (oldest : Option G) (w : World G),
      fetchTimes (getOplogReaderLoop cs stale oldest w).trace = fetchTimes w.trace := by
  induction cs with
  | nil =>
    intro stale oldest w
    cases stale <;> simp [getOplogReaderLoop, World.setSyncTarget, World.emit, fetchTimes]
  | cons c cs ih =>
    intro stale oldest w
    cases hc : c.connects
    · rw [loop_cons_unreachable c cs stale oldest w hc, ih]
      simp [World.emit, fetchTimes, List.filterMap_append]
    · cases hs : isStale c.liveState c.oldest
      · rw [loop_cons_viable c cs stale oldest w hc hs]
        simp [World.setSyncTarget, World.emit, fetchTimes, List.filterMap_append]
      · rw [loop_cons_stale c cs stale oldest w hc hs, ih]
        simp [World.emit, fetchTimes, List.filterMap_append]

theorem produce_cases (shutdown : List Bool) (w : World G) :
    ((getOplogReader { w with r := OplogReader.new }).world.bg.currentSyncTarget = none ∧
      produce shutdown w
        = Outcome.returned
            ((getOplogReader { w with r := OplogReader.new }).world.emit [Event.sleepsecs 1])) ∨
    ((getOplogReader { w with r := OplogReader.new }).world.bg.currentSyncTarget ≠ none ∧
      (getOplogReader { w with r := OplogReader.new }).world.tailingQueryGTE.r.haveCursor = false ∧
      produce shutdown w
        = Outcome.returned (getOplogReader { w with r := OplogReader.new }).world.tailingQueryGTE) ∨
    ((getOplogReader { w with r := OplogReader.new }).world.bg.currentSyncTarget ≠ none ∧
      (getOplogReader { w with r := OplogReader.new }).world.tailingQueryGTE.r.haveCursor = true ∧
      produce shutdown w
        = Outcome.aborted (getOplogReader { w with r := OplogReader.new }).world.tailingQueryGTE) := by
  have hret := getOplogReader_returns ({ w with r := OplogReader.new } : World G) rfl
  unfold produce
  rw [hret]
  generalize @getOplogReaderLoop G _ _ none none _ = w1
  simp only [Outcome.world]
  cases ht : w1.bg.currentSyncTarget with
  | none => exact Or.inl ⟨rfl, rfl⟩
  | some m =>
    cases hc : w1.tailingQueryGTE.r.haveCursor
    · refine Or.inr (Or.inl ⟨by simp, rfl, ?_⟩)
      simp [hc]
    · refine Or.inr (Or.inr ⟨by simp, rfl, ?_⟩)
      simp [hc, isRollbackRequired]

/-- C11: one call of `_producerThread` on a primary node backs off for exactly 1 and
returns with nothing else done; on a node that is fatal or starting up (and not
primary) it backs off for exactly 5 and returns with nothing else done; in every
other state its outcome is that of one call of `produce`, with no backoff added. -/
theorem producerThread_dispatch (state : MemberState) (shutdown : List Bool) (w : World G) :
    (state.primary = true →
      _producerThread state shutdown w = Outcome.returned (w.emit [Event.sleepsecs 1])) ∧
    (state.primary = false → (state.fatal = true ∨ state.startup = true) →
      _producerThread state shutdown w = Outcome.returned (w.emit [Event.sleepsecs 5])) ∧
    (state.primary = false → state.fatal = false → state.startup = false →
      _producerThread state shutdown w = produce shutdown w) := by
  refine ⟨?_, ?_, ?_⟩
  · intro hp
    simp [_producerThread, hp]
  · intro hp hfs
    rcases hfs with hf | hs
    · simp [_producerThread, hp, hf]
    · simp [_producerThread, hp, hs]
  · intro hp hf hs
    simp [_producerThread, hp, hf, hs]

/-- Witness for C11: a primary node sleeps 1, a node starting up sleeps 5, and a
secondary with nobody to sync from runs `produce`, whose own backoff of 1 is the
only one. -/
theorem producerThread_dispatch_witness :
    sleeps (_producerThread ⟨true, false, false⟩ [] (selecting [reachable "c" 10 100])).world.trace
      = [1] ∧
    (_producerThread ⟨true, false, false⟩ [] (selecting [reachable "c" 10 100])).world.toYield
      = [reachable "c" 10 100] ∧
    sleeps (_producerThread ⟨false, false, true⟩ [] (selecting [reachable "c" 10 100])).world.trace
      = [5] ∧
    _producerThread ⟨false, false, false⟩ [] (selecting [])
      = produce [] (selecting []) ∧
    sleeps (_producerThread ⟨false, false, false⟩ [] (selecting [])).world.trace = [1] :=
  ⟨by rw [(producerThread_dispatch ⟨true, false, false⟩ [] (selecting [reachable "c" 10 100])).1 rfl]
      decide,
   by rw [(producerThread_dispatch ⟨true, false, false⟩ [] (selecting [reachable "c" 10 100])).1 rfl]
      decide,
   by rw [(producerThread_dispatch ⟨false, false, true⟩ [] (selecting [reachable "c" 10 100])).2.1
        rfl (Or.inr rfl)]
      decide,
   (producerThread_dispatch ⟨false, false, false⟩ [] (selecting [])).2.2 rfl rfl rfl,
   by rw [(producerThread_dispatch ⟨false, false, false⟩ [] (selecting [])).2.2 rfl rfl rfl]
      decide⟩

/-- C12: `isRollbackRequired` halts the process for every reader, and every run of
`produce` ends in one of three ways: no sync target was selected and it returns
after its backoff; a target was selected, the tailing query left no cursor and it
returns; or a target was selected, there is a cursor and the process is halted
in `isRollbackRequired`.  In each case no record has been fetched and the queue
counter is what it was at entry, so from a fresh instance both counters are 0. -/
theorem produce_never_fetches (shutdown : List Bool) (w : World G) :
    (∀ v : World G, isRollbackRequired v = none) ∧
    (((getOplogReader { w with r := OplogReader.new }).world.bg.currentSyncTarget = none ∧
        produce shutdown w
          = Outcome.returned
              ((getOplogReader { w with r := OplogReader.new }).world.emit [Event.sleepsecs 1])) ∨
      ((getOplogReader { w with r := OplogReader.new }).world.bg.currentSyncTarget ≠ none ∧
        (getOplogReader { w with r := OplogReader.new }).world.tailingQueryGTE.r.haveCursor = false ∧
        produce shutdown w
          = Outcome.returned (getOplogReader { w with r := OplogReader.new }).world.tailingQueryGTE) ∨
      ((getOplogReader { w with r := OplogReader.new }).world.bg.currentSyncTarget ≠ none ∧
        (getOplogReader { w with r := OplogReader.new }).world.tailingQueryGTE.r.haveCursor = true ∧
        produce shutdown w
          = Outcome.aborted (getOplogReader { w with r := OplogReader.new }).world.tailingQueryGTE)) ∧
    fetchTimes (produce shutdown w).world.trace = fetchTimes w.trace ∧
    (produce shutdown w).world.bg.queueCounter = w.bg.queueCounter ∧
    (w.bg.queueCounter = QueueCounter.new → (produce shutdown w).world.bg.getCounters = (0, 0)) := by
  have hret := getOplogReader_returns ({ w with r := OplogReader.new } : World G) rfl
  have hq : (getOplogReader { w with r := OplogReader.new }).world.bg.queueCounter
      = w.bg.queueCounter := by
    rw [hret]
    exact loop_queueCounter _ _ _ _
  have hf : fetchTimes (getOplogReader { w with r := OplogReader.new }).world.trace
      = fetchTimes w.trace := by
    rw [hret]
    exact loop_fetchTimes _ _ _ _
  have hcounter : (produce shutdown w).world.bg.queueCounter = w.bg.queueCounter := by
    rcases produce_cases shutdown w with ⟨_, hp⟩ | ⟨_, _, hp⟩ | ⟨_, _, hp⟩
    · rw [hp]; exact hq
    · rw [hp]; simp only [Outcome.world, tailingQueryGTE_bg]; exact hq
    · rw [hp]; simp only [Outcome.world, tailingQueryGTE_bg]; exact hq
  refine ⟨fun _ => rfl, produce_cases shutdown w, ?_, hcounter, ?_⟩
  · rcases produce_cases shutdown w with ⟨_, hp⟩ | ⟨_, _, hp⟩ | ⟨_, _, hp⟩
    · rw [hp, ← hf]
      simp [Outcome.world, World.emit, fetchTimes, List.filterMap_append]
    · rw [hp]; simp only [Outcome.world, tailingQueryGTE_fetchTimes]; exact hf
    · rw [hp]; simp only [Outcome.world, tailingQueryGTE_fetchTimes]; exact hf
  · intro h0
    simp only [BackgroundSync.getCounters, hcounter, h0, QueueCounter.new]

/-- Witness for C12: a fresh instance with a healthy candidate and a cursor holding
a record is halted in `isRollbackRequired` with both counters still 0. -/
theorem produce_never_fetches_witness :
    produce [false, false, false]
        ({ selecting [reachable "c" 10 100] with query := some [⟨1, 5, 0⟩] })
      = Outcome.aborted (produce [false, false, false]
          ({ selecting [reachable "c" 10 100] with query := some [⟨1, 5, 0⟩] })).world ∧
    (produce [false, false, false]
        ({ selecting [reachable "c" 10 100] with query := some [⟨1, 5, 0⟩] })).world.r.batch
      = [⟨1, 5, 0⟩] ∧
    (produce [false, false, false]
        ({ selecting [reachable "c" 10 100] with query := some [⟨1, 5, 0⟩] })).world.bg.getCounters
      = (0, 0) :=
  ⟨by decide, by decide,
    (produce_never_fetches [false, false, false]
      ({ selecting [reachable "c" 10 100] with query := some [⟨1, 5, 0⟩] })).2.2.2.2 rfl⟩

end ProducerProps

/-! ## Properties of the key comparator -/

section CompareProps

variable {B O : Type}

theorem toInt32_of_small (x : Int) (h0 : 0 ≤ x) (h1 : x < 2147483648) : toInt32 x = x := by
  unfold toInt32
  omega

/-- The ladder of comparisons in the body of `dbt_bson_compare`, on the values it
inspects: `a` and `d` are the results of `woCompare` on the first and on the
second objects, `m` and `n` the bytes left in the two keys. -/
theorem compare_ladder (db : DB O) (ordering : O) (hd : db.cmp_descriptor = some ordering)
    (objsize : B → Int) (woCompare : B → B → O → Int) (k1 k2 : DBT B) :
    dbt_bson_compare objsize woCompare db k1 k2
      = (if woCompare k1.obj k2.obj ordering < 0 then some (-1)
         else if woCompare k1.obj k2.obj ordering > 0 then some 1
         else if bytesLeft objsize k1 > 0 ∧ bytesLeft objsize k2 > 0 then
           (if woCompare k1.other k2.other ordering < 0 then some (-1)
            else if woCompare k1.other k2.other ordering > 0 then some 1
            else some 0)
         else if bytesLeft objsize k1 > 0 ∧ bytesLeft objsize k2 = 0 then some 1
         else if bytesLeft objsize k1 = 0 ∧ bytesLeft objsize k2 > 0 then some (-1)
         else some 0) := by
  simp only [dbt_bson_compare, hd]

theorem ladder_tail_swap (d e m n : Int) (hde : d < 0 ↔ 0 < e) (hed : e < 0 ↔ 0 < d) :
    (if n > 0 ∧ m > 0 then
        (if e < 0 then some (-1) else if e > 0 then some 1 else some (0 : Int))
      else if n > 0 ∧ m = 0 then some 1
      else if n = 0 ∧ m > 0 then some (-1)
      else some 0)
      = Option.map (fun c : Int => -c)
          (if m > 0 ∧ n > 0 then
            (if d < 0 then some (-1) else if d > 0 then some 1 else some (0 : Int))
           else if m > 0 ∧ n = 0 then some 1
           else if m = 0 ∧ n > 0 then some (-1)
           else some 0) := by
  by_cases hmn : m > 0 ∧ n > 0
  · have hnm : n > 0 ∧ m > 0 := ⟨hmn.2, hmn.1⟩
    rw [if_pos hmn, if_pos hnm]
    split_ifs <;> first | rfl | omega
  · have hnm : ¬ (n > 0 ∧ m > 0) := fun h => hmn ⟨h.2, h.1⟩
    rw [if_neg hmn, if_neg hnm]
    split_ifs <;> first | rfl | omega

theorem ladder_swap (a b d e m n : Int) (hab : a < 0 ↔ 0 < b) (hba : b < 0 ↔ 0 < a)
    (hde : d < 0 ↔ 0 < e) (hed : e < 0 ↔ 0 < d) :
    (if b < 0 then some (-1)
      else if b > 0 then some 1
      else if n > 0 ∧ m > 0 then
        (if e < 0 then some (-1) else if e > 0 then some 1 else some (0 : Int))
      else if n > 0 ∧ m = 0 then some 1
      else if n = 0 ∧ m > 0 then some (-1)
      else some 0)
      = Option.map (fun c : Int => -c)
          (if a < 0 then some (-1)
           else if a > 0 then some 1
           else if m > 0 ∧ n > 0 then
            (if d < 0 then some (-1) else if d > 0 then some 1 else some (0 : Int))
           else if m > 0 ∧ n = 0 then some 1
           else if m = 0 ∧ n > 0 then some (-1)
           else some 0) := by
  by_cases ha : a < 0
  · have hb : b > 0 := hab.mp ha
    have hb2 : ¬ b < 0 := by omega
    rw [if_pos ha, if_neg hb2, if_pos hb]
    rfl
  · by_cases ha2 : a > 0
    · have hb : b < 0 := hba.mpr ha2
      rw [if_neg ha, if_pos ha2, if_pos hb]
      rfl
    · have hb1 : ¬ b < 0 := fun h => ha2 (hba.mp h)
      have hb2 : ¬ b > 0 := fun h => ha (hab.mpr h)
      rw [if_neg ha, if_neg ha2, if_neg hb1, if_neg hb2]
      exact ladder_tail_swap d e m n hde hed

/-- C13: with a descriptor in place and a `woCompare` whose sign is antisymmetric
under the descriptor's ordering (as it is when `woCompare(b, a) = -woCompare(a, b)`),
`dbt_bson_compare` returns -1, 0 or 1; swapping the keys negates the result; a key
compares equal to itself; and when the first objects compare equal, a key with
bytes left behind its first object orders after a key with none.  For a key that
satisfies `dassert((int) key->size >= obj.objsize())` the bytes left are the
exact difference of key size and first object size. -/
theorem dbt_bson_compare_antisymm (objsize : B → Int) (woCompare : B → B → O → Int)
    (db : DB O) (ordering : O) (hd : db.cmp_descriptor = some ordering)
    (hanti : ∀ a b : B, woCompare a b ordering < 0 ↔ 0 < woCompare b a ordering)
    (k1 k2 : DBT B) :
    (dbt_bson_compare objsize woCompare db k1 k2 = some (-1) ∨
      dbt_bson_compare objsize woCompare db k1 k2 = some 0 ∨
      dbt_bson_compare objsize woCompare db k1 k2 = some 1) ∧
    dbt_bson_compare objsize woCompare db k2 k1
      = (dbt_bson_compare objsize woCompare db k1 k2).map (fun c => -c) ∧
    dbt_bson_compare objsize woCompare db k1 k1 = some 0 ∧
    (woCompare k1.obj k2.obj ordering = 0 → 0 < bytesLeft objsize k1 → bytesLeft objsize k2 = 0 →
      dbt_bson_compare objsize woCompare db k1 k2 = some 1 ∧
      dbt_bson_compare objsize woCompare db k2 k1 = some (-1)) ∧
    (k1.size < 4294967296 → 0 ≤ objsize k1.obj → objsize k1.obj ≤ toInt32 k1.size →
      bytesLeft objsize k1 = (k1.size : Int) - objsize k1.obj) := by
  have hself : ∀ x : B, woCompare x x ordering = 0 := by
    intro x
    have h := hanti x x
    omega
  have hswap : dbt_bson_compare objsize woCompare db k2 k1
      = (dbt_bson_compare objsize woCompare db k1 k2).map (fun c => -c) := by
    rw [compare_ladder db ordering hd objsize woCompare k2 k1,
      compare_ladder db ordering hd objsize woCompare k1 k2]
    exact ladder_swap _ _ _ _ _ _ (hanti k1.obj k2.obj) (hanti k2.obj k1.obj)
      (hanti k1.other k2.other) (hanti k2.other k1.other)
  refine ⟨?_, hswap, ?_, ?_, ?_⟩
  · rw [compare_ladder db ordering hd objsize woCompare k1 k2]
    split_ifs <;> simp
  · rw [compare_ladder db ordering hd objsize woCompare k1 k1, hself k1.obj, hself k1.other]
    generalize bytesLeft objsize k1 = m
    split_ifs <;> first | rfl | omega
  · intro ha hm hn
    have h1 : dbt_bson_compare objsize woCompare db k1 k2 = some 1 := by
      rw [compare_ladder db ordering hd objsize woCompare k1 k2, ha, hn]
      generalize bytesLeft objsize k1 = m at hm ⊢
      split_ifs <;> first | rfl | omega
    exact ⟨h1, by rw [hswap, h1]; rfl⟩
  · intro hs h0 hle
    unfold bytesLeft
    unfold toInt32 at hle ⊢
    omega

/-- Witness for C13: in the toy BSON layer a key made of the object 3 alone orders
before the key made of the object 3 followed by the object 7, and after it when
the arguments are swapped. -/
theorem dbt_bson_compare_antisymm_witness :
    dbt_bson_compare toySize toyCompare ⟨some ()⟩ ⟨10, 3, 7⟩ ⟨5, 3, 0⟩ = some 1 ∧
    dbt_bson_compare toySize toyCompare ⟨some ()⟩ ⟨5, 3, 0⟩ ⟨10, 3, 7⟩ = some (-1) ∧
    dbt_bson_compare toySize toyCompare ⟨some ()⟩ ⟨10, 3, 7⟩ ⟨10, 3, 7⟩ = some 0 :=
  have h := dbt_bson_compare_antisymm toySize toyCompare ⟨some ()⟩ () rfl
    (by intro a b; unfold toyCompare; omega) ⟨10, 3, 7⟩ ⟨5, 3, 0⟩
  ⟨(h.2.2.2.1 (by decide) (by decide) (by decide)).1,
   (h.2.2.2.1 (by decide) (by decide) (by decide)).2, h.2.2.1⟩

end CompareProps

end Mongo
